import Mathlib

/-!
Verification development for the `xrdriveripc` module: a shallow embedding of
its configuration store, headset-mode translation, driver-state projection,
license projection and token operations, together with theorems about the
properties claimed of them.

Modelling conventions:
* Python strings handled character-by-character (splitting, stripping) are
  modelled as `List Char`; record fields that are only compared as wholes
  are ordinary `String`s.
* Python `float` values are modelled by their literal text (a `String`):
  Python guarantees `float(repr(x)) == x`, so a float value is represented
  by its canonical literal, and float parsing keeps the literal text.
* Files are modelled as lists of lines (`List (List Char)`); values cannot
  introduce line breaks in the model, and every theorem that depends on a
  value's text carries a no-newline hypothesis so that the model and the
  real byte stream agree.
* Python exceptions are modelled with `Except PyErr`; operations that the
  source lets propagate to the caller return `Except`.
* Wall-clock time (`time.time()`) is passed explicitly as an integer `now`.
-/

/-- Python exceptions that the modelled code can raise. -/
inductive PyErr where
  | keyError (k : String)
  | typeError
  | attributeError
  deriving DecidableEq, Repr

/-! ## Character-level primitives mirroring Python's `str` operations -/

/-- The characters Python's `str.strip()` removes. -/
def isPySpace (c : Char) : Bool :=
  c = ' ' || c = '\t' || c = '\n' || c = '\x0d' || c = '\x0b' || c = '\x0c'

/-- Python's `str.strip()`: drop leading and trailing whitespace. -/
def pyStrip (l : List Char) : List Char :=
  ((l.dropWhile isPySpace).reverse.dropWhile isPySpace).reverse

/-- Python's `str.split(sep)` for a one-character separator with no maxsplit:
`"".split(c) = [""]`, `"a=b=c".split('=') = ["a","b","c"]`. -/
def splitOnChar (c : Char) : List Char → List (List Char)
  | [] => [[]]
  | x :: xs =>
    let r := splitOnChar c xs
    if x = c then [] :: r
    else
      match r with
      | y :: ys => (x :: y) :: ys
      | [] => [[x]]

/-- Python's `sep.join(parts)` for a one-character separator. -/
def joinChar (c : Char) : List (List Char) → List Char
  | [] => []
  | [x] => x
  | x :: xs => x ++ c :: joinChar c xs

def isDigitChar (c : Char) : Bool := '0' ≤ c && c ≤ '9'

/-- Fuel-indexed helper for `natChars` (structural recursion keeps the
definition computable by the kernel). -/
def natCharsAux : Nat → Nat → List Char
  | 0, _ => []
  | fuel + 1, n =>
    if n < 10 then [Char.ofNat (48 + n)]
    else natCharsAux fuel (n / 10) ++ [Char.ofNat (48 + n % 10)]

/-- Decimal digits of a natural number, mirroring Python's `str(int)` for
nonnegative values. -/
def natChars (n : Nat) : List Char := natCharsAux (n + 1) n

/-- Python's `str(value)` for an `int`. -/
def pyIntRepr (i : Int) : List Char :=
  if i < 0 then '-' :: natChars i.natAbs else natChars i.toNat

/-- Numeric value of a digit string (the semantics of Python's `int(s)` on a
string that passed `s.isdigit()`). -/
def parseNatChars (l : List Char) : Nat :=
  l.foldl (fun a c => a * 10 + (c.toNat - 48)) 0

def pyLowerChar (c : Char) : Char :=
  if 'A' ≤ c && c ≤ 'Z' then Char.ofNat (c.toNat + 32) else c

/-- Python's `str.lower()` restricted to ASCII, which is all the code compares. -/
def pyLower (l : List Char) : List Char := l.map pyLowerChar

/-! ## Python float literals

A float value is represented by its literal text; `floatLit` recognises the
texts Python's `float()` accepts (ASCII digits, no underscores — none of the
code's values use them). -/

def isFloatSafeChar (c : Char) : Bool :=
  isDigitChar c || c = '.' || c = '+' || c = '-' || c = 'e' || c = 'E' ||
  c = 'i' || c = 'n' || c = 'f' || c = 'a' || c = 't' || c = 'y' ||
  c = 'I' || c = 'N' || c = 'F' || c = 'A' || c = 'T' || c = 'Y'

def dropSign : List Char → List Char
  | '+' :: r => r
  | '-' :: r => r
  | l => l

def expPart : List Char → Bool
  | [] => true
  | 'e' :: r => let r' := dropSign r; decide (r' ≠ []) && r'.all isDigitChar
  | 'E' :: r => let r' := dropSign r; decide (r' ≠ []) && r'.all isDigitChar
  | _ => false

def floatCore (l : List Char) : Bool :=
  let ds := l.takeWhile isDigitChar
  let rest := l.dropWhile isDigitChar
  match rest with
  | '.' :: r2 =>
    (decide (ds ≠ []) || decide (r2.takeWhile isDigitChar ≠ [])) &&
      expPart (r2.dropWhile isDigitChar)
  | _ => decide (ds ≠ []) && expPart rest

/-- Recogniser for the float literals Python's `float()` accepts (after
stripping); the leading `all isFloatSafeChar` conjunct is implied by the
structural check and is kept explicit for reasoning about the characters. -/
def floatLit (l : List Char) : Bool :=
  l.all isFloatSafeChar &&
    (let m := dropSign l
     let lm := pyLower m
     lm = "inf".data || lm = "infinity".data || lm = "nan".data || floatCore m)

/-! ## The field parsers (`parse_boolean` … `parse_array`) -/

/-- `parse_boolean`: falsy (empty) input yields the default, otherwise
case-insensitive comparison with `"true"`. -/
def parse_boolean (value : List Char) (dflt : Bool) : Bool :=
  if value = [] then dflt else pyLower value = "true".data

/-- `parse_int`: `int(value) if value.isdigit() else default`. -/
def parse_int (value : List Char) (dflt : Int) : Int :=
  if value ≠ [] ∧ value.all isDigitChar then Int.ofNat (parseNatChars value)
  else dflt

/-- `parse_float`: `float(value)` with `ValueError` recovered as the default.
Python strips surrounding whitespace; the parsed float is represented by its
stripped literal text. -/
def parse_float (value : List Char) (dflt : String) : String :=
  if floatLit (pyStrip value) then String.mk (pyStrip value) else dflt

/-- `parse_string`: falsy (empty) input yields the default. -/
def parse_string (value : List Char) (dflt : String) : String :=
  if value = [] then dflt else String.mk value

/-- `parse_array`: `value.split(",") if value else default`. -/
def parse_array (value : List Char) (dflt : List String) : List String :=
  if value = [] then dflt else (splitOnChar ',' value).map String.mk

/-! ## The configuration record (`CONFIG_ENTRIES`) -/

/-- One field per `CONFIG_ENTRIES` key, with the schema-declared type
(floats carried as their literal text). -/
structure ConfigRecord where
  disabled : Bool
  gamescope_reshade_wayland_disabled : Bool
  output_mode : String
  external_mode : List String
  vr_lite_invert_x : Bool
  vr_lite_invert_y : Bool
  mouse_sensitivity : Int
  display_zoom : String
  look_ahead : Int
  sbs_display_size : String
  sbs_display_distance : String
  sbs_content : Bool
  sbs_mode_stretched : Bool
  sideview_position : String
  sideview_display_size : String
  virtual_display_smooth_follow_enabled : Bool
  sideview_smooth_follow_enabled : Bool
  sideview_follow_threshold : String
  curved_display : Bool
  multi_tap_enabled : Bool
  smooth_follow_track_roll : Bool
  smooth_follow_track_pitch : Bool
  smooth_follow_track_yaw : Bool
  neck_saver_horizontal_multiplier : String
  neck_saver_vertical_multiplier : String
  debug : List String
  deriving DecidableEq, Repr

/-- The schema defaults (second column of `CONFIG_ENTRIES`). -/
def defaultConfig : ConfigRecord where
  disabled := true
  gamescope_reshade_wayland_disabled := false
  output_mode := "mouse"
  external_mode := ["none"]
  vr_lite_invert_x := false
  vr_lite_invert_y := false
  mouse_sensitivity := 30
  display_zoom := "1.0"
  look_ahead := 0
  sbs_display_size := "1.0"
  sbs_display_distance := "1.0"
  sbs_content := false
  sbs_mode_stretched := true
  sideview_position := "center"
  sideview_display_size := "1.0"
  virtual_display_smooth_follow_enabled := false
  sideview_smooth_follow_enabled := false
  sideview_follow_threshold := "0.5"
  curved_display := false
  multi_tap_enabled := false
  smooth_follow_track_roll := false
  smooth_follow_track_pitch := true
  smooth_follow_track_yaw := true
  neck_saver_horizontal_multiplier := "1.0"
  neck_saver_vertical_multiplier := "1.0"
  debug := []

/-- Apply one parsed `key=value` pair: look the key up in the schema and run
its parser against the schema default (`parser(value, default_val)`), exactly
as `retrieve_config`'s loop does; unknown keys are ignored. -/
def updateField (cfg : ConfigRecord) (k : String) (v : List Char) : ConfigRecord :=
  match k with
  | "disabled" => { cfg with disabled := parse_boolean v true }
  | "gamescope_reshade_wayland_disabled" =>
      { cfg with gamescope_reshade_wayland_disabled := parse_boolean v false }
  | "output_mode" => { cfg with output_mode := parse_string v "mouse" }
  | "external_mode" => { cfg with external_mode := parse_array v ["none"] }
  | "vr_lite_invert_x" => { cfg with vr_lite_invert_x := parse_boolean v false }
  | "vr_lite_invert_y" => { cfg with vr_lite_invert_y := parse_boolean v false }
  | "mouse_sensitivity" => { cfg with mouse_sensitivity := parse_int v 30 }
  | "display_zoom" => { cfg with display_zoom := parse_float v "1.0" }
  | "look_ahead" => { cfg with look_ahead := parse_int v 0 }
  | "sbs_display_size" => { cfg with sbs_display_size := parse_float v "1.0" }
  | "sbs_display_distance" => { cfg with sbs_display_distance := parse_float v "1.0" }
  | "sbs_content" => { cfg with sbs_content := parse_boolean v false }
  | "sbs_mode_stretched" => { cfg with sbs_mode_stretched := parse_boolean v true }
  | "sideview_position" => { cfg with sideview_position := parse_string v "center" }
  | "sideview_display_size" => { cfg with sideview_display_size := parse_float v "1.0" }
  | "virtual_display_smooth_follow_enabled" =>
      { cfg with virtual_display_smooth_follow_enabled := parse_boolean v false }
  | "sideview_smooth_follow_enabled" =>
      { cfg with sideview_smooth_follow_enabled := parse_boolean v false }
  | "sideview_follow_threshold" =>
      { cfg with sideview_follow_threshold := parse_float v "0.5" }
  | "curved_display" => { cfg with curved_display := parse_boolean v false }
  | "multi_tap_enabled" => { cfg with multi_tap_enabled := parse_boolean v false }
  | "smooth_follow_track_roll" =>
      { cfg with smooth_follow_track_roll := parse_boolean v false }
  | "smooth_follow_track_pitch" =>
      { cfg with smooth_follow_track_pitch := parse_boolean v true }
  | "smooth_follow_track_yaw" =>
      { cfg with smooth_follow_track_yaw := parse_boolean v true }
  | "neck_saver_horizontal_multiplier" =>
      { cfg with neck_saver_horizontal_multiplier := parse_float v "1.0" }
  | "neck_saver_vertical_multiplier" =>
      { cfg with neck_saver_vertical_multiplier := parse_float v "1.0" }
  | "debug" => { cfg with debug := parse_array v [] }
  | _ => cfg

/-- One iteration of `retrieve_config`'s line loop: skip blank lines, split the
stripped line on `=` (a line that does not split into exactly two parts raises
and is skipped), and apply the field's parser. -/
def processLine (cfg : ConfigRecord) (line : List Char) : ConfigRecord :=
  let l := pyStrip line
  if l = [] then cfg
  else
    match splitOnChar '=' l with
    | [k, v] => updateField cfg (String.mk k) v
    | _ => cfg

/-- `retrieve_config` without the derived view: defaults first, then each line
of the file overlaid. -/
def retrieve_config (lines : List (List Char)) : ConfigRecord :=
  lines.foldl processLine defaultConfig

/-! ## Mode translation -/

/-- `VR_LITE_OUTPUT_MODES`. -/
def VR_LITE_OUTPUT_MODES : List String := ["mouse", "joystick"]

/-- `self.supported_output_modes` as built by `__init__`: the caller-supplied
managed list plus `BASE_EXTERNAL_MODES = ["none"]`. -/
def mkSupported (som : List String) : List String := som ++ ["none"]

/-- `filter_to_other_external_modes`: keep only the modes not owned by this
translator. -/
def filter_to_other_external_modes (supported : List String)
    (external_modes : List String) : List String :=
  external_modes.filter (fun mode => mode ∉ supported)

/-- The partial record produced by `headset_mode_to_config`: `external_mode`
is set in every branch, `output_mode` and `disabled` only in some. -/
structure PartialModeConfig where
  output_mode : Option String
  disabled : Option Bool
  external_mode : List String
  deriving DecidableEq, Repr

/-- `headset_mode_to_config`. The headset mode and joystick flag come from a
caller dictionary via `.get`, hence the `Option`s; Python's truthiness test on
the joystick flag holds exactly for `some true`. -/
def headset_mode_to_config (supported : List String) (headset_mode : Option String)
    (joystick_mode : Option Bool) (old_external_modes : List String) :
    PartialModeConfig :=
  let new_external_modes := filter_to_other_external_modes supported old_external_modes
  match headset_mode with
  | some m =>
    if m ∈ supported then
      { output_mode := some "external_only", disabled := some false,
        external_mode := [m] }
    else if m = "vr_lite" then
      { output_mode := some (if joystick_mode = some true then "joystick" else "mouse"),
        disabled := some false, external_mode := new_external_modes }
    else if new_external_modes = [] then
      { output_mode := none, disabled := some true, external_mode := new_external_modes }
    else
      { output_mode := some "external_only", disabled := none,
        external_mode := new_external_modes }
  | none =>
    if new_external_modes = [] then
      { output_mode := none, disabled := some true, external_mode := new_external_modes }
    else
      { output_mode := some "external_only", disabled := none,
        external_mode := new_external_modes }

/-- `config_to_headset_mode`. The truthiness test `if supported_mode` fails on
the empty string as well as on `None`. -/
def config_to_headset_mode (supported : List String) (cfg : ConfigRecord) : String :=
  if cfg.disabled then "disabled"
  else if cfg.output_mode ∈ VR_LITE_OUTPUT_MODES then "vr_lite"
  else
    match supported.find? (fun mode => mode ∈ cfg.external_mode) with
    | some m => if m ≠ "" ∧ m ≠ "none" then m else "disabled"
    | none => "disabled"

/-- The derived config view (`build_config_ui_view`). -/
structure ConfigUiView where
  headset_mode : String
  is_joystick_mode : Bool
  deriving DecidableEq, Repr

def build_config_ui_view (supported : List String) (cfg : ConfigRecord) : ConfigUiView where
  headset_mode := config_to_headset_mode supported cfg
  is_joystick_mode := cfg.output_mode = "joystick"

/-- `retrieve_config` with `include_ui_view = True`: the record plus the
derived view. -/
def retrieve_config_view (supported : List String) (lines : List (List Char)) :
    ConfigRecord × ConfigUiView :=
  let cfg := retrieve_config lines
  (cfg, build_config_ui_view supported cfg)

/-! ## Serialization and `write_config` -/

/-- Python's `str(value).lower()` for a `bool`. -/
def pyBoolRepr (b : Bool) : List Char :=
  if b then "true".data else "false".data

/-- Comma-joined list serialization (`",".join(value)`). -/
def commaJoin (xs : List String) : List Char :=
  joinChar ',' (xs.map String.data)

/-- One serialized `key=value` line. -/
def mkLine (key : String) (v : List Char) : List Char :=
  key.data ++ '=' :: v

/-- The lines `write_config` emits, one `CONFIG_ENTRIES` field per line in
schema (dict insertion) order: booleans lowercase, ints via `str`, lists
comma-joined, everything else (strings, floats) via `str`. -/
def serializeConfig (cfg : ConfigRecord) : List (List Char) :=
  [ mkLine "disabled" (pyBoolRepr cfg.disabled),
    mkLine "gamescope_reshade_wayland_disabled" (pyBoolRepr cfg.gamescope_reshade_wayland_disabled),
    mkLine "output_mode" cfg.output_mode.data,
    mkLine "external_mode" (commaJoin cfg.external_mode),
    mkLine "vr_lite_invert_x" (pyBoolRepr cfg.vr_lite_invert_x),
    mkLine "vr_lite_invert_y" (pyBoolRepr cfg.vr_lite_invert_y),
    mkLine "mouse_sensitivity" (pyIntRepr cfg.mouse_sensitivity),
    mkLine "display_zoom" cfg.display_zoom.data,
    mkLine "look_ahead" (pyIntRepr cfg.look_ahead),
    mkLine "sbs_display_size" cfg.sbs_display_size.data,
    mkLine "sbs_display_distance" cfg.sbs_display_distance.data,
    mkLine "sbs_content" (pyBoolRepr cfg.sbs_content),
    mkLine "sbs_mode_stretched" (pyBoolRepr cfg.sbs_mode_stretched),
    mkLine "sideview_position" cfg.sideview_position.data,
    mkLine "sideview_display_size" cfg.sideview_display_size.data,
    mkLine "virtual_display_smooth_follow_enabled" (pyBoolRepr cfg.virtual_display_smooth_follow_enabled),
    mkLine "sideview_smooth_follow_enabled" (pyBoolRepr cfg.sideview_smooth_follow_enabled),
    mkLine "sideview_follow_threshold" cfg.sideview_follow_threshold.data,
    mkLine "curved_display" (pyBoolRepr cfg.curved_display),
    mkLine "multi_tap_enabled" (pyBoolRepr cfg.multi_tap_enabled),
    mkLine "smooth_follow_track_roll" (pyBoolRepr cfg.smooth_follow_track_roll),
    mkLine "smooth_follow_track_pitch" (pyBoolRepr cfg.smooth_follow_track_pitch),
    mkLine "smooth_follow_track_yaw" (pyBoolRepr cfg.smooth_follow_track_yaw),
    mkLine "neck_saver_horizontal_multiplier" cfg.neck_saver_horizontal_multiplier.data,
    mkLine "neck_saver_vertical_multiplier" cfg.neck_saver_vertical_multiplier.data,
    mkLine "debug" (commaJoin cfg.debug) ]

/-- The caller-side `ui_view` payload accepted by `write_config` (a dict read
with `.get`, hence optional fields). A present-but-empty dict is falsy in
Python and is modelled as `none`. -/
structure UiViewIn where
  headset_mode : Option String
  is_joystick_mode : Option Bool
  deriving DecidableEq, Repr

/-- Filesystem side effects of `write_config`, in program order. -/
inductive FsEffect where
  | writeFile (path : String) (content : List (List Char))
  | replace (src dst : String)
  | chmod (path : String) (mode : Nat)
  deriving DecidableEq, Repr

/-- Merge the partial record produced by `headset_mode_to_config` into a full
record (`config.update(...)`): `external_mode` is always present in the
partial record, `output_mode`/`disabled` only sometimes. -/
def applyPartial (cfg : ConfigRecord) (p : PartialModeConfig) : ConfigRecord :=
  { cfg with
    output_mode := p.output_mode.getD cfg.output_mode
    disabled := p.disabled.getD cfg.disabled
    external_mode := p.external_mode }

/-- Everything `write_config` produces: the record it returns (with its
recomputed view), the lines it serializes, and its filesystem effects. -/
structure WriteResult where
  record : ConfigRecord
  view : ConfigUiView
  lines : List (List Char)
  effects : List FsEffect
  deriving DecidableEq, Repr

/-- `write_config`: pop the view payload and, when truthy, re-read the old
config from disk and merge the translated mode; append `"none"` to an empty
`external_mode`; serialize; write the fixed relative path `"temp.txt"`;
`os.replace` it over the target; `chmod` the target to `0o666`; return the
record with its recomputed view. -/
def write_config (supported : List String) (config_file_path : String)
    (disk : List (List Char)) (config : ConfigRecord) (ui_view : Option UiViewIn) :
    WriteResult :=
  let c1 := match ui_view with
    | none => config
    | some v =>
      let old_config := retrieve_config disk
      applyPartial config
        (headset_mode_to_config supported v.headset_mode v.is_joystick_mode
          old_config.external_mode)
  let c2 := if c1.external_mode = [] then
      { c1 with external_mode := c1.external_mode ++ ["none"] }
    else c1
  let ls := serializeConfig c2
  { record := c2
    view := build_config_ui_view supported c2
    lines := ls
    effects := [FsEffect.writeFile "temp.txt" ls,
                FsEffect.replace "temp.txt" config_file_path,
                FsEffect.chmod config_file_path 438] }

/-- POSIX `os.path.dirname`. -/
def posixDirname (p : String) : String :=
  let headRev := p.data.reverse.dropWhile (fun c => c ≠ '/')
  if headRev = [] then ""
  else if headRev.all (fun c => c = '/') then String.mk headRev.reverse
  else String.mk (headRev.dropWhile (fun c => c = '/')).reverse

/-! ## JSON values and the license document -/

/-- Parsed JSON, as produced by `parse_json_string` for `device_license`.
Numbers are modelled as integers (the license document carries epoch seconds
and whole amounts). -/
inductive JVal where
  | null
  | b (x : Bool)
  | n (x : Int)
  | s (x : String)
  | arr (xs : List JVal)
  | obj (fields : List (String × JVal))
  deriving Repr

/-- JSON `null` becomes Python `None`, which the model folds into `Option`. -/
def nullCollapse : Option JVal → Option JVal
  | some JVal.null => none
  | o => o

/-- Python `value.get(k)` on a parsed-JSON value: `AttributeError` unless the
receiver is a dict; a missing key or a `null` value yields `None`. -/
def jattr (v : JVal) (k : String) : Except PyErr (Option JVal) :=
  match v with
  | JVal.obj fs => Except.ok (nullCollapse (fs.lookup k))
  | _ => Except.error PyErr.attributeError

/-- Python `value[k]` on a parsed-JSON value: `KeyError` when the key is
missing, `TypeError` when the receiver is not a dict. -/
def jindex (v : JVal) (k : String) : Except PyErr (Option JVal) :=
  match v with
  | JVal.obj fs =>
    match fs.lookup k with
    | some x => Except.ok (nullCollapse (some x))
    | none => Except.error (PyErr.keyError k)
  | _ => Except.error PyErr.typeError

/-- Python `license[k].items()`: index, then iterate the dict's pairs
(`AttributeError` if the value is not a dict). -/
def jindexItems (v : JVal) (k : String) : Except PyErr (List (String × JVal)) :=
  match jindex v k with
  | Except.error e => Except.error e
  | Except.ok none => Except.error PyErr.typeError
  | Except.ok (some (JVal.obj fs)) => Except.ok fs
  | Except.ok (some _) => Except.error PyErr.typeError

/-- Python `x == True` for a `.get` result: `True` itself, and the numbers
equal to `1` (Python's `1 == True`). -/
def pyEqTrue : Option JVal → Bool
  | some (JVal.b true) => true
  | some (JVal.n x) => x = 1
  | _ => false

/-- Python `x == s` for a string literal `s` (cross-type equality is `False`,
never an error). -/
def jvalEqStr (v : Option JVal) (target : String) : Bool :=
  match v with
  | some (JVal.s x) => x = target
  | _ => false

/-- Python `x != 0` (`False == 0` and `True == 1` hold in Python). -/
def jvalNeZero : JVal → Bool
  | JVal.n x => x ≠ 0
  | JVal.b x => x
  | _ => true

/-- Python `d.get(k)` where the key is itself a `.get` result: `None` keys
look up nothing, unhashable keys (lists, dicts) raise `TypeError`, and a
non-dict receiver (including `None`) raises `AttributeError`. -/
def pyDictGetOpt (d : Option JVal) (k : Option JVal) : Except PyErr (Option JVal) :=
  match d with
  | some (JVal.obj fs) =>
    match k with
    | none => Except.ok none
    | some (JVal.s key) => Except.ok (nullCollapse (fs.lookup key))
    | some (JVal.b _) => Except.ok none
    | some (JVal.n _) => Except.ok none
    | some JVal.null => Except.ok none
    | some (JVal.arr _) => Except.error PyErr.typeError
    | some (JVal.obj _) => Except.error PyErr.typeError
  | _ => Except.error PyErr.attributeError

/-- Python `a < b` on parsed-JSON scalars: numbers (with booleans counting as
0/1) and string pairs compare, anything else raises `TypeError`. -/
def pyLt (a b : JVal) : Except PyErr Bool :=
  match a, b with
  | JVal.n x, JVal.n y => Except.ok (x < y)
  | JVal.n x, JVal.b y => Except.ok (x < if y then 1 else 0)
  | JVal.b x, JVal.n y => Except.ok ((if x then 1 else 0 : Int) < y)
  | JVal.b x, JVal.b y => Except.ok ((if x then 1 else 0 : Int) < if y then 1 else 0)
  | JVal.s x, JVal.s y => Except.ok (x < y)
  | _, _ => Except.error PyErr.typeError

/-- `_seconds_remaining`: falsy inputs (`0`, `False`, empty containers) yield
`None`; numeric inputs yield `endDate - now`; anything else cannot be
subtracted from a float and raises `TypeError`. -/
def seconds_remaining (date_seconds : JVal) (now : Int) : Except PyErr (Option Int) :=
  match date_seconds with
  | JVal.n x => if x = 0 then Except.ok none else Except.ok (some (x - now))
  | JVal.b x => if x then Except.ok (some (1 - now)) else Except.ok none
  | JVal.s x => if x = "" then Except.ok none else Except.error PyErr.typeError
  | JVal.arr [] => Except.ok none
  | JVal.arr (_ :: _) => Except.error PyErr.typeError
  | JVal.obj [] => Except.ok none
  | JVal.obj (_ :: _) => Except.error PyErr.typeError
  | JVal.null => Except.ok none

/-! ## License projection (`_license_tiers_view`, `_license_features_view`,
`_license_action_needed_details`) -/

/-- The per-tier view built by `_license_tiers_view`: the raw `.get` results
for the period fields plus the optional computed seconds. -/
structure TierView where
  active_period : Option JVal
  funds_needed_by_period : Option JVal
  funds_needed_in_seconds : Option Int
  deriving Repr

/-- The per-feature view built by `_license_features_view`. -/
structure FeatureView where
  is_enabled : Bool
  is_trial : Bool
  funds_needed_in_seconds : Option Int
  deriving Repr

/-- The body of `_license_tiers_view`'s loop for one tier. -/
def tierEntryView (value : JVal) (now : Int) : Except PyErr TierView :=
  match jattr value "active" with
  | Except.error e => Except.error e
  | Except.ok activeVal =>
    let is_active := pyEqTrue activeVal
    match (if is_active then jattr value "activePeriodType" else Except.ok none) with
    | Except.error e => Except.error e
    | Except.ok active_period =>
      match jattr value "fundsNeededByPeriod" with
      | Except.error e => Except.error e
      | Except.ok funds_needed =>
        match jattr value "endDate" with
        | Except.error e => Except.error e
        | Except.ok end_date =>
          match is_active, end_date with
          | true, some ed =>
            match pyDictGetOpt funds_needed active_period with
            | Except.error e => Except.error e
            | Except.ok active_period_funds_needed =>
              match active_period_funds_needed with
              | some apfn =>
                if jvalNeZero apfn then
                  match seconds_remaining ed now with
                  | Except.error e => Except.error e
                  | Except.ok none => Except.error PyErr.typeError
                  | Except.ok (some t) =>
                    if 0 < t then
                      Except.ok { active_period := active_period,
                                  funds_needed_by_period := funds_needed,
                                  funds_needed_in_seconds := some t }
                    else
                      Except.ok { active_period := none,
                                  funds_needed_by_period := funds_needed,
                                  funds_needed_in_seconds := none }
                else
                  Except.ok { active_period := active_period,
                              funds_needed_by_period := funds_needed,
                              funds_needed_in_seconds := none }
              | none =>
                Except.ok { active_period := active_period,
                            funds_needed_by_period := funds_needed,
                            funds_needed_in_seconds := none }
          | _, _ =>
            Except.ok { active_period := active_period,
                        funds_needed_by_period := funds_needed,
                        funds_needed_in_seconds := none }

/-- Loop helper: build the tier views in document order, propagating the first
exception. -/
def tierViewsLoop (now : Int) : List (String × JVal) → Except PyErr (List (String × TierView))
  | [] => Except.ok []
  | (k, v) :: rest =>
    match tierEntryView v now with
    | Except.error e => Except.error e
    | Except.ok tv =>
      match tierViewsLoop now rest with
      | Except.error e => Except.error e
      | Except.ok tvs => Except.ok ((k, tv) :: tvs)

/-- `_license_tiers_view`. -/
def license_tiers_view (license : JVal) (now : Int) :
    Except PyErr (List (String × TierView)) :=
  match jindexItems license "tiers" with
  | Except.error e => Except.error e
  | Except.ok items => tierViewsLoop now items

/-- The body of `_license_features_view`'s loop for one feature. -/
def featureEntryView (value : JVal) (now : Int) : Except PyErr FeatureView :=
  match jindex value "status" with
  | Except.error e => Except.error e
  | Except.ok status =>
    let is_enabled := !jvalEqStr status "off"
    let is_trial := jvalEqStr status "trial"
    match jattr value "endDate" with
    | Except.error e => Except.error e
    | Except.ok end_date =>
      match is_enabled, end_date with
      | true, some ed =>
        match seconds_remaining ed now with
        | Except.error e => Except.error e
        | Except.ok none => Except.error PyErr.typeError
        | Except.ok (some t) =>
          if 0 < t then
            Except.ok { is_enabled := true, is_trial := is_trial,
                        funds_needed_in_seconds := some t }
          else
            Except.ok { is_enabled := false, is_trial := is_trial,
                        funds_needed_in_seconds := none }
      | _, _ =>
        Except.ok { is_enabled := is_enabled, is_trial := is_trial,
                    funds_needed_in_seconds := none }

def featureViewsLoop (now : Int) :
    List (String × JVal) → Except PyErr (List (String × FeatureView))
  | [] => Except.ok []
  | (k, v) :: rest =>
    match featureEntryView v now with
    | Except.error e => Except.error e
    | Except.ok fv =>
      match featureViewsLoop now rest with
      | Except.error e => Except.error e
      | Except.ok fvs => Except.ok ((k, fv) :: fvs)

/-- `_license_features_view`. -/
def license_features_view (license : JVal) (now : Int) :
    Except PyErr (List (String × FeatureView)) :=
  match jindexItems license "features" with
  | Except.error e => Except.error e
  | Except.ok items => featureViewsLoop now items

/-- The non-null result of `_license_action_needed_details`. -/
structure ActionNeeded where
  seconds : Int
  funds_needed_usd : Option JVal
  deriving Repr

/-- One step of the tier scan in `_license_action_needed_details`: the
accumulator is `(min_funds_needed_date, min_funds_needed)`. The funds amount
is only consulted when this tier strictly improves the running seconds
minimum, and it only replaces the running funds amount when it is non-null,
nonzero and smaller. -/
def actionNeededTierStep (acc : Option Int × Option JVal) (tier : TierView) :
    Except PyErr (Option Int × Option JVal) :=
  match tier.funds_needed_in_seconds with
  | none => Except.ok acc
  | some f =>
    let improving := match acc.1 with
      | none => true
      | some m => decide (f < m)
    if improving then
      match pyDictGetOpt tier.funds_needed_by_period tier.active_period with
      | Except.error e => Except.error e
      | Except.ok apfnOpt =>
        match apfnOpt with
        | none => Except.ok (some f, acc.2)
        | some apfn =>
          if jvalNeZero apfn then
            match acc.2 with
            | none => Except.ok (some f, some apfn)
            | some mf =>
              match pyLt apfn mf with
              | Except.error e => Except.error e
              | Except.ok lt =>
                if lt then Except.ok (some f, some apfn)
                else Except.ok (some f, acc.2)
          else Except.ok (some f, acc.2)
    else Except.ok acc

def actionNeededTierLoop (acc : Option Int × Option JVal) :
    List (String × TierView) → Except PyErr (Option Int × Option JVal)
  | [] => Except.ok acc
  | (_, t) :: rest =>
    match actionNeededTierStep acc t with
    | Except.error e => Except.error e
    | Except.ok acc' => actionNeededTierLoop acc' rest

/-- The feature scan only updates the running seconds minimum. -/
def actionNeededFeatureLoop (acc : Option Int) : List (String × FeatureView) → Option Int
  | [] => acc
  | (_, f) :: rest =>
    match f.funds_needed_in_seconds with
    | none => actionNeededFeatureLoop acc rest
    | some v =>
      let improving := match acc with
        | none => true
        | some m => decide (v < m)
      actionNeededFeatureLoop (if improving then some v else acc) rest

/-- `_license_action_needed_details`. -/
def license_action_needed_details (tiers : List (String × TierView))
    (features : List (String × FeatureView)) : Except PyErr (Option ActionNeeded) :=
  match actionNeededTierLoop (none, none) tiers with
  | Except.error e => Except.error e
  | Except.ok (minDate, minFunds) =>
    match actionNeededFeatureLoop minDate features with
    | none => Except.ok none
    | some d => Except.ok (some { seconds := d, funds_needed_usd := minFunds })

/-! ## Driver state (`STATE_ENTRIES`, `build_state_ui_view`,
`retrieve_driver_state`)

The spec treats the raw line-oriented schema loader as an out-of-scope
collaborator ("given a path and a typed-field schema, returns a mapping with
defaults applied"), so driver-state contents are modelled at the loader's
output type: a fully populated `StateRecord`. `device_license` holds the
`parse_json_string` result (`none` for malformed or `null` JSON). -/

structure StateRecord where
  heartbeat : Int
  hardware_id : Option String
  connected_device_brand : Option String
  connected_device_model : Option String
  magnet_supported : Bool
  magnet_calibration_type : String
  using_magnet : Bool
  magnet_stale : Bool
  magnet_calibrating : Bool
  gyro_calibrating : Bool
  accel_calibrating : Bool
  sbs_mode_enabled : Bool
  sbs_mode_supported : Bool
  firmware_update_recommended : Bool
  breezy_desktop_smooth_follow_enabled : Bool
  is_gamescope_reshade_ipc_connected : Bool
  device_license : Option JVal
  deriving Repr

/-- The all-defaults state record (a missing state file). -/
def defaultState : StateRecord where
  heartbeat := 0
  hardware_id := none
  connected_device_brand := none
  connected_device_model := none
  magnet_supported := false
  magnet_calibration_type := "UNSUPPORTED"
  using_magnet := false
  magnet_stale := false
  magnet_calibrating := false
  gyro_calibrating := false
  accel_calibrating := false
  sbs_mode_enabled := false
  sbs_mode_supported := false
  firmware_update_recommended := false
  breezy_desktop_smooth_follow_enabled := false
  is_gamescope_reshade_ipc_connected := false
  device_license := none

/-- The license part of the state view. -/
structure LicenseView where
  tiers : List (String × TierView)
  features : List (String × FeatureView)
  hardware_id : Option JVal
  confirmed_token : Bool
  action_needed : Option ActionNeeded
  enabled_features : List String
  deriving Repr

/-- The state view (`build_state_ui_view`'s result). -/
structure StateUiView where
  driver_running : Bool
  license : Option LicenseView
  deriving Repr

/-- `_license_enabled_features`. -/
def license_enabled_features (features : List (String × FeatureView)) : List String :=
  (features.filter (fun p => p.2.is_enabled)).map Prod.fst

/-- `build_state_ui_view`: liveness from the heartbeat, then the license view
(if a license document is present), with any exception from the license
projection propagating to the caller. -/
def build_state_ui_view (state : StateRecord) (now : Int) : Except PyErr StateUiView :=
  let driver_running := state.heartbeat ≠ 0 && now - state.heartbeat < 5
  match state.device_license with
  | none => Except.ok { driver_running := driver_running, license := none }
  | some license_json =>
    match license_tiers_view license_json now with
    | Except.error e => Except.error e
    | Except.ok tiers =>
      match license_features_view license_json now with
      | Except.error e => Except.error e
      | Except.ok features =>
        match jindex license_json "hardwareId" with
        | Except.error e => Except.error e
        | Except.ok hardware_id =>
          match jattr license_json "confirmedToken" with
          | Except.error e => Except.error e
          | Except.ok confirmed =>
            match license_action_needed_details tiers features with
            | Except.error e => Except.error e
            | Except.ok action_needed =>
              Except.ok
                { driver_running := driver_running
                  license := some
                    { tiers := tiers, features := features,
                      hardware_id := hardware_id,
                      confirmed_token := pyEqTrue confirmed,
                      action_needed := action_needed,
                      enabled_features := license_enabled_features features } }

/-- The values a returned state dict can carry. -/
inductive SVal where
  | i (x : Int)
  | os (x : Option String)
  | b (x : Bool)
  | s (x : String)
  | lic (x : Option JVal)
  | view (x : StateUiView)
  deriving Repr

/-- The full record `retrieve_driver_state` returns when the driver is live:
every `STATE_ENTRIES` field in schema order plus the derived view. -/
def fullStateRecord (st : StateRecord) (ui : StateUiView) : List (String × SVal) :=
  [ ("heartbeat", SVal.i st.heartbeat),
    ("hardware_id", SVal.os st.hardware_id),
    ("connected_device_brand", SVal.os st.connected_device_brand),
    ("connected_device_model", SVal.os st.connected_device_model),
    ("magnet_supported", SVal.b st.magnet_supported),
    ("magnet_calibration_type", SVal.s st.magnet_calibration_type),
    ("using_magnet", SVal.b st.using_magnet),
    ("magnet_stale", SVal.b st.magnet_stale),
    ("magnet_calibrating", SVal.b st.magnet_calibrating),
    ("gyro_calibrating", SVal.b st.gyro_calibrating),
    ("accel_calibrating", SVal.b st.accel_calibrating),
    ("sbs_mode_enabled", SVal.b st.sbs_mode_enabled),
    ("sbs_mode_supported", SVal.b st.sbs_mode_supported),
    ("firmware_update_recommended", SVal.b st.firmware_update_recommended),
    ("breezy_desktop_smooth_follow_enabled", SVal.b st.breezy_desktop_smooth_follow_enabled),
    ("is_gamescope_reshade_ipc_connected", SVal.b st.is_gamescope_reshade_ipc_connected),
    ("device_license", SVal.lic st.device_license),
    ("ui_view", SVal.view ui) ]

/-- The reduced record returned when the state is judged stale. -/
def staleStateRecord (st : StateRecord) (ui : StateUiView) : List (String × SVal) :=
  [ ("heartbeat", SVal.i st.heartbeat),
    ("hardware_id", SVal.os st.hardware_id),
    ("device_license", SVal.lic st.device_license),
    ("ui_view", SVal.view ui) ]

/-- `retrieve_driver_state` on an already-loaded state record. -/
def retrieve_driver_state (st : StateRecord) (now : Int) :
    Except PyErr (List (String × SVal)) :=
  match build_state_ui_view st now with
  | Except.error e => Except.error e
  | Except.ok ui =>
    if ui.driver_running then Except.ok (fullStateRecord st ui)
    else Except.ok (staleStateRecord st ui)

/-! ## Token client (`request_token`, `verify_token`)

The HTTP exchange is modelled by its observable outcome: either the transport
raised (`Except.error ()`), or a response arrived with a status code and a
body; `body = none` stands for a body `json.loads` rejects. -/

structure HttpResponse where
  status : Nat
  body : Option JVal
  deriving Repr

/-- `json.loads(...).get("message", "")`: `AttributeError` when the JSON is
not an object (caught by the caller); a missing key defaults to `""`, a
`null` value becomes `None`. -/
def responseMessage (j : JVal) : Except PyErr (Option JVal) :=
  match j with
  | JVal.obj fs =>
    match fs.lookup "message" with
    | none => Except.ok (some (JVal.s ""))
    | some v => Except.ok (nullCollapse (some v))
  | _ => Except.error PyErr.attributeError

/-- Python truthiness of a `.get` result. -/
def pyTruthy : Option JVal → Bool
  | none => false
  | some JVal.null => false
  | some (JVal.b x) => x
  | some (JVal.n x) => x ≠ 0
  | some (JVal.s x) => x ≠ ""
  | some (JVal.arr xs) => !xs.isEmpty
  | some (JVal.obj fs) => !fs.isEmpty

/-- `hardware_id` as read from the dict `retrieve_driver_state` returned
(present in both the full and the reduced record). -/
def stateHardwareId (rec : List (String × SVal)) : Option String :=
  match rec.lookup "hardware_id" with
  | some (SVal.os o) => o
  | _ => none

/-- Python `x == s` for the message value (cross-type equality is `False`). -/
def messageEquals (v : Option JVal) (target : String) : Bool :=
  match v with
  | some (JVal.s x) => x = target
  | _ => false

/-- Common body of `request_token` and `verify_token`: read the driver state
(exceptions from the reader propagate — it is called outside the `try`);
without a `hardware_id` report failure; inside the `try`, any transport
error, a status outside {200, 400}, an unreadable body, a non-dict body or a
falsy/absent `message` all produce `False`; the result is `True` exactly on
the expected message string. -/
def token_op (expected : String) (st : StateRecord) (now : Int)
    (resp : Except Unit HttpResponse) : Except PyErr Bool :=
  match retrieve_driver_state st now with
  | Except.error e => Except.error e
  | Except.ok rec =>
    match stateHardwareId rec with
    | none => Except.ok false
    | some _ =>
      Except.ok (match resp with
        | Except.error _ => false
        | Except.ok r =>
          if r.status = 200 ∨ r.status = 400 then
            match r.body with
            | none => false
            | some j =>
              match responseMessage j with
              | Except.error _ => false
              | Except.ok message =>
                if pyTruthy message then messageEquals message expected
                else false
          else false)

/-- `request_token` (the success message for the POST). -/
def request_token (st : StateRecord) (now : Int) (resp : Except Unit HttpResponse) :
    Except PyErr Bool :=
  token_op "Token request sent" st now resp

/-- `verify_token` (the success message for the PUT). -/
def verify_token (st : StateRecord) (now : Int) (resp : Except Unit HttpResponse) :
    Except PyErr Bool :=
  token_op "Token verified" st now resp

/-! ## Spec-side definition for the `configToMode` refinement claim -/

/-- Modelled from the spec's words, for comparison with
`config_to_headset_mode`: "scan the managed-mode list in its declared
priority order and return the first mode that appears in
`record.external_mode` (excluding the sentinel `none`); if none match,
result is `disabled`". -/
def configToModeSpec (managed : List String) (cfg : ConfigRecord) : String :=
  if cfg.disabled then "disabled"
  else if cfg.output_mode ∈ VR_LITE_OUTPUT_MODES then "vr_lite"
  else
    match (managed.filter (fun m => m ≠ "none")).find?
        (fun m => m ∈ cfg.external_mode) with
    | some m => m
    | none => "disabled"

/-! ## Concrete example inputs used by counterexamples and witnesses -/

/-- A tier view whose seconds value (100) is not the minimum but whose
active-period funds amount (5) is the smaller one. -/
def tierA : TierView where
  active_period := some (JVal.s "monthly")
  funds_needed_by_period := some (JVal.obj [("monthly", JVal.n 5)])
  funds_needed_in_seconds := some 100

/-- The tier view that supplies the minimal seconds value (50) with
active-period funds amount 10. -/
def tierB : TierView where
  active_period := some (JVal.s "monthly")
  funds_needed_by_period := some (JVal.obj [("monthly", JVal.n 10)])
  funds_needed_in_seconds := some 50

/-- Two tiers, scanned in this order by `_license_action_needed_details`. -/
def exTiersC1 : List (String × TierView) := [("a", tierA), ("b", tierB)]

/-- A license document that parses as JSON but lacks the `hardwareId` key. -/
def licNoHw : JVal := JVal.obj [("tiers", JVal.obj []), ("features", JVal.obj [])]

/-- A license document lacking the `tiers` key. -/
def licNoTiers : JVal := JVal.obj [("features", JVal.obj []), ("hardwareId", JVal.s "h")]

/-- A license document lacking the `features` key. -/
def licNoFeatures : JVal := JVal.obj [("tiers", JVal.obj []), ("hardwareId", JVal.s "h")]

/-- A license document with an active tier, nonzero active-period funds and
`endDate = 0`. -/
def licEndDateZero : JVal := JVal.obj
  [ ("tiers", JVal.obj [("supporter", JVal.obj
      [ ("active", JVal.b true),
        ("activePeriodType", JVal.s "monthly"),
        ("fundsNeededByPeriod", JVal.obj [("monthly", JVal.n 5)]),
        ("endDate", JVal.n 0) ])]),
    ("features", JVal.obj []),
    ("hardwareId", JVal.s "h") ]

/-- A stale state (heartbeat 0) whose license document is the valid JSON
object `{}`. -/
def stStaleBadLicense : StateRecord :=
  { defaultState with heartbeat := 0, device_license := some (JVal.obj []) }

def stNoHw : StateRecord := { defaultState with device_license := some licNoHw }

def stNoTiers : StateRecord := { defaultState with device_license := some licNoTiers }

def stNoFeatures : StateRecord := { defaultState with device_license := some licNoFeatures }

def stEndDateZero : StateRecord := { defaultState with device_license := some licEndDateZero }

/-- A live state record (heartbeat 1, read at `now = 2`) with a hardware id. -/
def stLive : StateRecord := { defaultState with heartbeat := 1, hardware_id := some "h" }

/-- A successful token-endpoint response for `request_token`. -/
def respTokenSent : HttpResponse where
  status := 200
  body := some (JVal.obj [("message", JVal.s "Token request sent")])

/-- The key list of the full state payload. -/
def fullStateKeys : List String :=
  [ "heartbeat", "hardware_id", "connected_device_brand", "connected_device_model",
    "magnet_supported", "magnet_calibration_type", "using_magnet", "magnet_stale",
    "magnet_calibrating", "gyro_calibrating", "accel_calibrating",
    "sbs_mode_enabled", "sbs_mode_supported", "firmware_update_recommended",
    "breezy_desktop_smooth_follow_enabled", "is_gamescope_reshade_ipc_connected",
    "device_license", "ui_view" ]

/-- The key list of the reduced (stale) state payload. -/
def staleStateKeys : List String :=
  ["heartbeat", "hardware_id", "device_license", "ui_view"]

/-- A schema-typed config record (every field carries a value of its declared
type) whose `mouse_sensitivity` is negative. -/
def cfgNegativeInt : ConfigRecord := { defaultConfig with mouse_sensitivity := -5 }

/-- A valid config record exercising non-default values for the witness. -/
def cfgRoundtripWitness : ConfigRecord :=
  { defaultConfig with
    disabled := false
    output_mode := "external_only"
    external_mode := ["sideview", "custom_mode"]
    mouse_sensitivity := 12
    display_zoom := "1.25"
    look_ahead := 3
    sideview_position := "bottom"
    debug := ["gestures"] }

/-- A config record reporting an external sideview mode, used by the
`configToMode` witness. -/
def cfgSideview : ConfigRecord :=
  { defaultConfig with
    disabled := false
    output_mode := "external_only"
    external_mode := ["sideview"] }

/-! ## Predicates used by the theorems -/

/-- The `funds_needed_in_seconds` values of the tiers, in scan order. -/
def tierSeconds (tiers : List (String × TierView)) : List Int :=
  tiers.filterMap (fun p => p.2.funds_needed_in_seconds)

/-- The `funds_needed_in_seconds` values of the features, in scan order. -/
def featureSeconds (features : List (String × FeatureView)) : List Int :=
  features.filterMap (fun p => p.2.funds_needed_in_seconds)

/-- All funds-needed-in-seconds values, tiers first. -/
def allFundsSeconds (tiers : List (String × TierView))
    (features : List (String × FeatureView)) : List Int :=
  tierSeconds tiers ++ featureSeconds features

/-- Well-formedness of a tier view as `_license_tiers_view` produces it: a
tier carrying a seconds value has a dict of numeric per-period amounts and a
string (or absent) active period. -/
def WFTierView (t : TierView) : Prop :=
  t.funds_needed_in_seconds.isSome →
    (t.active_period = none ∨ ∃ s, t.active_period = some (JVal.s s)) ∧
    ∃ fs, t.funds_needed_by_period = some (JVal.obj fs) ∧
      ∀ q v, (q, v) ∈ fs → ∃ i, v = JVal.n i

def WFTiers (tiers : List (String × TierView)) : Prop :=
  ∀ p ∈ tiers, WFTierView p.2

/-- `m` is the minimum of `S` (`none` exactly when `S` is empty). -/
def MinIs (m : Option Int) (S : List Int) : Prop :=
  (m = none ↔ S = []) ∧ ∀ x, m = some x → x ∈ S ∧ ∀ v ∈ S, x ≤ v

/-- Where the running `min_funds_needed` value can come from: nowhere yet,
or some already-scanned tier carrying a seconds value whose active-period
amount it is (a nonzero number). -/
def UsdOrigin (mf : Option JVal) (tiers : List (String × TierView)) : Prop :=
  mf = none ∨ ∃ p ∈ tiers, p.2.funds_needed_in_seconds.isSome ∧
    ∃ i : Int, mf = some (JVal.n i) ∧ i ≠ 0 ∧
      pyDictGetOpt p.2.funds_needed_by_period p.2.active_period =
        Except.ok (some (JVal.n i))

/-- A string field value that survives the `key=value` line format: nonempty,
free of `=` and of whitespace. -/
def strFieldOK (s : String) : Prop :=
  s.data ≠ [] ∧ ∀ c ∈ s.data, c ≠ '=' ∧ isPySpace c = false

/-- A list element that survives the comma-joined line format. -/
def listElemOK (s : String) : Prop :=
  s.data ≠ [] ∧ ∀ c ∈ s.data, c ≠ '=' ∧ c ≠ ',' ∧ isPySpace c = false

def listFieldOK (xs : List String) : Prop := ∀ x ∈ xs, listElemOK x

/-- A float field value: a well-formed Python float literal. -/
def floatFieldOK (s : String) : Prop := floatLit s.data = true

/-- The valid config records of the round-trip claim: schema-typed values
whose integers are nonnegative and whose string-shaped values survive the
flat `key=value` file format. -/
def ValidConfigRecord (cfg : ConfigRecord) : Prop :=
  0 ≤ cfg.mouse_sensitivity ∧
  0 ≤ cfg.look_ahead ∧
  strFieldOK cfg.output_mode ∧
  strFieldOK cfg.sideview_position ∧
  cfg.external_mode ≠ [] ∧
  listFieldOK cfg.external_mode ∧
  listFieldOK cfg.debug ∧
  floatFieldOK cfg.display_zoom ∧
  floatFieldOK cfg.sbs_display_size ∧
  floatFieldOK cfg.sbs_display_distance ∧
  floatFieldOK cfg.sideview_display_size ∧
  floatFieldOK cfg.sideview_follow_threshold ∧
  floatFieldOK cfg.neck_saver_horizontal_multiplier ∧
  floatFieldOK cfg.neck_saver_vertical_multiplier

/-! # Theorems -/

/-! ## Helper lemmas -/

theorem externalModeFix_ne_nil (c : ConfigRecord) :
    (if c.external_mode = [] then
        { c with external_mode := c.external_mode ++ ["none"] }
      else c).external_mode ≠ [] := by
  by_cases h : c.external_mode = [] <;> simp [h]

/-! ## C6 -/

/-- C6: after every call to `write_config` — including calls whose input
carries a `ui_view` payload that is translated and merged — the
`external_mode` list that is serialized to disk and returned to the caller
is non-empty (`write_config` appends the sentinel `"none"` to an empty
merged list before serializing). -/
theorem write_config_external_mode_nonempty (supported : List String) (path : String)
    (disk : List (List Char)) (config : ConfigRecord) (ui_view : Option UiViewIn) :
    (write_config supported path disk config ui_view).record.external_mode ≠ [] ∧
    (write_config supported path disk config ui_view).lines =
      serializeConfig (write_config supported path disk config ui_view).record := by
  refine ⟨?_, rfl⟩
  dsimp only [write_config]
  exact externalModeFix_ne_nil _

/-! ## C5 -/

/-- C5 counterexample: with an empty managed set, translating `vr_lite` with
previous external modes `["none"]` yields an empty `external_mode` list —
`headset_mode_to_config` itself never appends the sentinel. -/
theorem headset_mode_to_config_empty_counterexample :
    (headset_mode_to_config (mkSupported []) (some "vr_lite") (some true)
        ["none"]).external_mode = [] := by decide

/-- C5 (amended): the partial record returned by `headset_mode_to_config` has
an empty `external_mode` list exactly when the requested mode is not a
supported mode and the filtered previous list is empty; in every branch the
list is either the filtered previous list kept verbatim or the singleton of
the requested managed mode — the sentinel `"none"` is never appended here
(that happens later, in `write_config`). -/
theorem headset_mode_to_config_empty_iff (supported : List String)
    (headset_mode : Option String) (joystick_mode : Option Bool) (old : List String) :
    ((headset_mode_to_config supported headset_mode joystick_mode old).external_mode = []
      ↔ (∀ m, headset_mode = some m → m ∉ supported) ∧
          filter_to_other_external_modes supported old = []) ∧
    ((headset_mode_to_config supported headset_mode joystick_mode old).external_mode =
        filter_to_other_external_modes supported old ∨
      ∃ m, headset_mode = some m ∧ m ∈ supported ∧
        (headset_mode_to_config supported headset_mode joystick_mode old).external_mode
          = [m]) := by
  cases headset_mode with
  | none =>
    unfold headset_mode_to_config
    by_cases h : filter_to_other_external_modes supported old = [] <;> simp [h]
  | some m =>
    unfold headset_mode_to_config
    dsimp only
    by_cases hs : m ∈ supported
    · simp [hs]
    · rw [if_neg hs]
      by_cases hv : m = "vr_lite"
      · subst hv
        rw [if_pos rfl]
        by_cases h : filter_to_other_external_modes supported old = [] <;>
          simp [hs, h]
      · rw [if_neg hv]
        by_cases h : filter_to_other_external_modes supported old = [] <;>
          simp [hs, hv, h]

/-! ## C7 -/

/-- C7: for a translator whose managed-mode set contains neither
`"sideview"` nor the reserved always-available name `"vr_lite"`, translating
`vr_lite` with joystick on and previous modes `["sideview"]` keeps the
unmanaged mode verbatim and selects the joystick output mode. -/
theorem vr_lite_preserves_unmanaged (som : List String)
    (h1 : "sideview" ∉ som) (h2 : "vr_lite" ∉ som) :
    headset_mode_to_config (mkSupported som) (some "vr_lite") (some true) ["sideview"] =
      { output_mode := some "joystick", disabled := some false,
        external_mode := ["sideview"] } := by
  unfold headset_mode_to_config filter_to_other_external_modes mkSupported
  have hs : ¬ ("sideview" ∈ som ++ ["none"]) := by simp [h1]
  have hv : ¬ ("vr_lite" ∈ som ++ ["none"]) := by simp [h2]
  simp [hs, hv, h1, h2]

/-- C7 witness at the managed set `["virtual_display"]`. -/
theorem vr_lite_preserves_unmanaged_witness :
    headset_mode_to_config (mkSupported ["virtual_display"]) (some "vr_lite")
        (some true) ["sideview"] =
      { output_mode := some "joystick", disabled := some false,
        external_mode := ["sideview"] } :=
  vr_lite_preserves_unmanaged ["virtual_display"] (by decide) (by decide)

/-! ## C10 -/

/-- C10: state contents whose `device_license` is valid JSON can make
`retrieve_driver_state` raise instead of returning: a license object missing
`hardwareId`, `tiers` or `features` raises a `KeyError`, and an active tier
with nonzero active-period funds and `endDate = 0` makes
`_seconds_remaining` return `None`, whose comparison against `0` raises a
`TypeError`. -/
theorem retrieve_driver_state_crash_inputs :
    retrieve_driver_state stNoHw 0 = Except.error (PyErr.keyError "hardwareId") ∧
    retrieve_driver_state stNoTiers 0 = Except.error (PyErr.keyError "tiers") ∧
    retrieve_driver_state stNoFeatures 0 = Except.error (PyErr.keyError "features") ∧
    seconds_remaining (JVal.n 0) 0 = Except.ok none ∧
    retrieve_driver_state stEndDateZero 0 = Except.error PyErr.typeError :=
  ⟨rfl, rfl, rfl, rfl, rfl⟩

/-! ## C3 -/

theorem find?_append_cases (p : String → Bool) (l1 l2 : List String) :
    (l1 ++ l2).find? p =
      (match l1.find? p with
       | some x => some x
       | none => l2.find? p) := by
  induction l1 with
  | nil => simp
  | cons a t ih =>
    by_cases h : p a
    · simp [List.find?_cons_of_pos _ h]
    · simp [List.find?_cons_of_neg _ h, ih]

/-- C3: for a managed list that contains neither the sentinel `"none"` nor
the empty string, `config_to_headset_mode` computes exactly the spec's
precedence: `disabled` wins, then `vr_lite` on a mouse/joystick output mode,
then the first managed mode (scanned in declared priority order, sentinel
excluded) present in `external_mode`, with `disabled` as the fallback. -/
theorem config_to_headset_mode_spec_correct (som : List String) (cfg : ConfigRecord)
    (hn : "none" ∉ som) (he : "" ∉ som) :
    config_to_headset_mode (mkSupported som) cfg = configToModeSpec som cfg := by
  unfold config_to_headset_mode configToModeSpec mkSupported
  by_cases hd : cfg.disabled
  · simp [hd]
  by_cases hv : cfg.output_mode ∈ VR_LITE_OUTPUT_MODES
  · simp [hd, hv]
  rw [if_neg hd, if_neg hd, if_neg hv, if_neg hv]
  have hfilter : som.filter (fun m => m ≠ "none") = som := by
    refine List.filter_eq_self.mpr ?_
    intro a ha
    simp only [ne_eq, decide_eq_true_eq]
    intro hEq
    exact hn (hEq ▸ ha)
  rw [hfilter, find?_append_cases]
  cases hfind : som.find? (fun m => m ∈ cfg.external_mode) with
  | some m =>
    have hmem : m ∈ som := List.mem_of_find?_eq_some hfind
    have hm1 : m ≠ "none" := fun hEq => hn (hEq ▸ hmem)
    have hm2 : m ≠ "" := fun hEq => he (hEq ▸ hmem)
    simp [hm1, hm2]
  | none =>
    cases hfind2 : List.find? (fun m => m ∈ cfg.external_mode) ["none"] with
    | some m =>
      have hmem : m ∈ ["none"] := List.mem_of_find?_eq_some hfind2
      have : m = "none" := by simpa using hmem
      simp [this]
    | none => simp

/-- C3 witness: a sideview translator on a record whose external mode is
`sideview`. -/
theorem config_to_headset_mode_spec_correct_witness :
    config_to_headset_mode (mkSupported ["sideview"]) cfgSideview =
      configToModeSpec ["sideview"] cfgSideview :=
  config_to_headset_mode_spec_correct ["sideview"] cfgSideview (by decide) (by decide)

/-! ## C4 -/

theorem build_state_ui_view_running (st : StateRecord) (now : Int) (ui : StateUiView)
    (h : build_state_ui_view st now = Except.ok ui) :
    ui.driver_running =
      (decide (st.heartbeat ≠ 0) && decide (now - st.heartbeat < 5)) := by
  unfold build_state_ui_view at h
  repeat' split at h
  all_goals first
    | (injection h with h2; subst h2; rfl)
    | (cases h)

/-- C4 (amended): whenever `retrieve_driver_state` returns a record (the
license projection did not raise), a heartbeat of 0 or an age of at least 5
seconds yields exactly the keys `heartbeat`, `hardware_id`,
`device_license`, `ui_view`, and a nonzero heartbeat younger than 5 seconds
yields the full record. -/
theorem retrieve_driver_state_staleness_amended (st : StateRecord) (now : Int)
    (r : List (String × SVal)) (h : retrieve_driver_state st now = Except.ok r) :
    ((st.heartbeat = 0 ∨ 5 ≤ now - st.heartbeat) →
        r.map Prod.fst = staleStateKeys) ∧
    ((st.heartbeat ≠ 0 ∧ now - st.heartbeat < 5) →
        r.map Prod.fst = fullStateKeys) := by
  unfold retrieve_driver_state at h
  cases hb : build_state_ui_view st now with
  | error e => rw [hb] at h; cases h
  | ok ui =>
    rw [hb] at h
    dsimp only at h
    have hrun := build_state_ui_view_running st now ui hb
    by_cases hr : ui.driver_running
    · rw [if_pos hr] at h
      injection h with h2
      subst h2
      rw [hrun] at hr
      constructor
      · intro hstale
        exfalso
        rcases hstale with h0 | h5
        · simp [h0] at hr
        · simp only [Bool.and_eq_true, decide_eq_true_eq] at hr
          omega
      · intro _
        rfl
    · rw [if_neg hr] at h
      injection h with h2
      subst h2
      rw [hrun] at hr
      constructor
      · intro _
        rfl
      · intro hlive
        exfalso
        simp only [Bool.and_eq_true, decide_eq_true_eq, not_and] at hr
        exact absurd (hr hlive.1) (by omega)

/-- C4 counterexample: a stale state (heartbeat 0) whose `device_license` is
the valid JSON object `{}` makes `retrieve_driver_state` raise instead of
returning the reduced four-key record the claim promises. -/
theorem retrieve_driver_state_stale_counterexample :
    stStaleBadLicense.heartbeat = 0 ∧
    retrieve_driver_state stStaleBadLicense 100 =
      Except.error (PyErr.keyError "tiers") :=
  ⟨rfl, rfl⟩

/-- C4 witness: on a live heartbeat (1, read at time 2) the amended theorem
yields the full key list. -/
theorem retrieve_driver_state_staleness_amended_witness :
    (fullStateRecord stLive { driver_running := true, license := none }).map
        Prod.fst = fullStateKeys :=
  (retrieve_driver_state_staleness_amended stLive 2 _ rfl).2 ⟨by decide, by decide⟩

/-! ## C9 -/

theorem messageCheck_eq_true (m : Option JVal) (expected : String)
    (hexp : expected ≠ "") :
    ((if pyTruthy m then messageEquals m expected else false) = true) ↔
      m = some (JVal.s expected) := by
  cases m with
  | none => simp [pyTruthy]
  | some v =>
    cases v with
    | s x =>
      by_cases hx : x = ""
      · subst hx
        simp [pyTruthy, messageEquals]
        exact fun hEq => hexp hEq.symm
      · simp [pyTruthy, messageEquals, hx]
    | null => simp [pyTruthy]
    | b y => cases y <;> simp [pyTruthy, messageEquals]
    | n y => by_cases hy : y = 0 <;> simp [pyTruthy, messageEquals, hy]
    | arr xs => cases xs <;> simp [pyTruthy, messageEquals, List.isEmpty]
    | obj fs => cases fs <;> simp [pyTruthy, messageEquals, List.isEmpty]

theorem token_op_spec (expected : String) (hexp : expected ≠ "")
    (st : StateRecord) (now : Int) (resp : Except Unit HttpResponse)
    (r : List (String × SVal)) (h : retrieve_driver_state st now = Except.ok r) :
    ∃ b, token_op expected st now resp = Except.ok b ∧
      (stateHardwareId r = none → b = false) ∧
      (∀ resp', resp = Except.ok resp' → resp'.status ≠ 200 → resp'.status ≠ 400 →
        b = false) ∧
      (∀ resp' j, resp = Except.ok resp' → resp'.body = some j →
        responseMessage j = Except.ok (some (JVal.s "")) → b = false) ∧
      (b = true ↔ stateHardwareId r ≠ none ∧ ∃ resp' j,
        resp = Except.ok resp' ∧ (resp'.status = 200 ∨ resp'.status = 400) ∧
        resp'.body = some j ∧
        responseMessage j = Except.ok (some (JVal.s expected))) := by
  unfold token_op
  rw [h]
  dsimp only
  cases hw : stateHardwareId r with
  | none =>
    refine ⟨false, rfl, fun _ => rfl, fun _ _ _ _ => rfl, fun _ _ _ _ _ => rfl, ?_⟩
    simp
  | some hwid =>
    cases resp with
    | error e =>
      refine ⟨false, rfl, fun _ => rfl, ?_, ?_, ?_⟩
      · intro r2 he hs1 hs2
        cases he
      · intro r2 j he hj hm
        cases he
      · simp
    | ok resp' =>
      dsimp only
      by_cases hst : resp'.status = 200 ∨ resp'.status = 400
      case neg =>
        rw [if_neg hst]
        refine ⟨false, rfl, fun _ => rfl, fun _ _ _ _ => rfl, fun _ _ _ _ _ => rfl, ?_⟩
        constructor
        · intro hc
          cases hc
        · rintro ⟨_, r2, j, he, hs, _, _⟩
          injection he with he
          subst he
          exact absurd hs hst
      case pos =>
        rw [if_pos hst]
        cases hbody : resp'.body with
        | none =>
          dsimp only
          refine ⟨false, rfl, fun _ => rfl, fun _ _ _ _ => rfl,
            fun _ _ _ _ _ => rfl, ?_⟩
          constructor
          · intro hc
            cases hc
          · rintro ⟨_, r2, j, he, _, hj, _⟩
            injection he with he
            subst he
            rw [hbody] at hj
            cases hj
        | some j =>
          dsimp only
          cases hmsg : responseMessage j with
          | error e2 =>
            dsimp only
            refine ⟨false, rfl, fun _ => rfl, fun _ _ _ _ => rfl,
              fun _ _ _ _ _ => rfl, ?_⟩
            constructor
            · intro hc
              cases hc
            · rintro ⟨_, r2, j2, he, _, hj, hm⟩
              injection he with he
              subst he
              rw [hbody] at hj
              injection hj with hj
              subst hj
              rw [hmsg] at hm
              cases hm
          | ok m =>
            dsimp only
            refine ⟨(if pyTruthy m = true then messageEquals m expected else false),
              rfl, ?_, ?_, ?_, ?_⟩
            · intro hc
              cases hc
            · intro r2 he hs1 hs2
              injection he with he
              subst he
              rcases hst with hst | hst
              · exact absurd hst hs1
              · exact absurd hst hs2
            · intro r2 j2 he hj hm
              injection he with he
              subst he
              rw [hbody] at hj
              injection hj with hj
              subst hj
              rw [hmsg] at hm
              injection hm with hm
              subst hm
              simp [pyTruthy]
            · rw [messageCheck_eq_true m expected hexp]
              constructor
              · intro hm
                subst hm
                exact ⟨by simp, resp', j, rfl, hst, hbody, hmsg⟩
              · rintro ⟨_, r2, j2, he, _, hj, hm⟩
                injection he with he
                subst he
                rw [hbody] at hj
                injection hj with hj
                subst hj
                rw [hmsg] at hm
                exact Except.ok.inj hm

/-- C9: whenever the driver-state read succeeds, `request_token` and
`verify_token` return a boolean and never raise: `false` when `hardware_id`
is absent, when the HTTP status is outside {200, 400} or when the response
JSON lacks a `message` field, and `true` exactly when the message equals
"Token request sent" (request) resp. "Token verified" (verify). -/
theorem token_ops_boolean_result (st : StateRecord) (now : Int)
    (resp : Except Unit HttpResponse) (r : List (String × SVal))
    (h : retrieve_driver_state st now = Except.ok r) :
    ∃ b c, request_token st now resp = Except.ok b ∧
      verify_token st now resp = Except.ok c ∧
      (stateHardwareId r = none → b = false ∧ c = false) ∧
      (∀ resp', resp = Except.ok resp' → resp'.status ≠ 200 → resp'.status ≠ 400 →
        b = false ∧ c = false) ∧
      (∀ resp' j, resp = Except.ok resp' → resp'.body = some j →
        responseMessage j = Except.ok (some (JVal.s "")) → b = false ∧ c = false) ∧
      (b = true ↔ stateHardwareId r ≠ none ∧ ∃ resp' j,
        resp = Except.ok resp' ∧ (resp'.status = 200 ∨ resp'.status = 400) ∧
        resp'.body = some j ∧
        responseMessage j = Except.ok (some (JVal.s "Token request sent"))) ∧
      (c = true ↔ stateHardwareId r ≠ none ∧ ∃ resp' j,
        resp = Except.ok resp' ∧ (resp'.status = 200 ∨ resp'.status = 400) ∧
        resp'.body = some j ∧
        responseMessage j = Except.ok (some (JVal.s "Token verified"))) := by
  obtain ⟨b, hb, hb1, hb2, hb3, hb4⟩ :=
    token_op_spec "Token request sent" (by decide) st now resp r h
  obtain ⟨c, hc, hc1, hc2, hc3, hc4⟩ :=
    token_op_spec "Token verified" (by decide) st now resp r h
  refine ⟨b, c, hb, hc, fun hw => ⟨hb1 hw, hc1 hw⟩, ?_, ?_, hb4, hc4⟩
  · intro resp' he hs1 hs2
    exact ⟨hb2 resp' he hs1 hs2, hc2 resp' he hs1 hs2⟩
  · intro resp' j he hj hm
    exact ⟨hb3 resp' j he hj hm, hc3 resp' j he hj hm⟩

/-- C9 witness: a live state with a hardware id and a 200 response carrying
the expected message makes `request_token` report success. -/
theorem token_ops_boolean_result_witness :
    request_token stLive 2 (Except.ok respTokenSent) = Except.ok true := by
  obtain ⟨b, c, hb, hc, _, _, _, hb4, _⟩ :=
    token_ops_boolean_result stLive 2 (Except.ok respTokenSent)
      (fullStateRecord stLive { driver_running := true, license := none }) rfl
  have hbt : b = true := hb4.mpr ⟨by decide, respTokenSent,
    JVal.obj [("message", JVal.s "Token request sent")], rfl, Or.inl rfl, rfl, rfl⟩
  rw [hbt] at hb
  exact hb

/-! ## C1 -/

/-- C1 counterexample: two tiers scanned in order — 100 s with a 5 USD
active-period amount, then 50 s with a 10 USD amount. The minimum comes from
tier `b`, yet `funds_needed_usd` stays 5: it is not the funds-needed amount
of the tier that supplies the minimum. -/
theorem action_needed_min_usd_counterexample :
    license_action_needed_details exTiersC1 [] =
      Except.ok (some { seconds := 50, funds_needed_usd := some (JVal.n 5) }) ∧
    tierA.funds_needed_in_seconds = some 100 ∧
    tierB.funds_needed_in_seconds = some 50 ∧
    pyDictGetOpt tierB.funds_needed_by_period tierB.active_period =
      Except.ok (some (JVal.n 10)) ∧
    JVal.n 5 ≠ JVal.n 10 := by
  refine ⟨rfl, rfl, rfl, rfl, ?_⟩
  intro hcontra
  injection hcontra with hcontra
  omega

theorem lookup_mem {β : Type _} (k : String) (v : β) (fs : List (String × β))
    (h : fs.lookup k = some v) : (k, v) ∈ fs := by
  induction fs with
  | nil => cases h
  | cons p rest ih =>
    obtain ⟨k', v'⟩ := p
    rw [List.lookup] at h
    by_cases hk : k = k'
    · subst hk
      rw [beq_self_eq_true] at h
      simp only at h
      injection h with h
      subst h
      exact List.mem_cons_self _ _
    · rw [beq_eq_false_iff_ne.mpr hk] at h
      simp only at h
      exact List.mem_cons_of_mem _ (ih h)

theorem UsdOrigin_mono (mf : Option JVal) (L L' : List (String × TierView))
    (h : UsdOrigin mf L) : UsdOrigin mf (L ++ L') := by
  rcases h with h | ⟨p, hp, hrest⟩
  · exact Or.inl h
  · exact Or.inr ⟨p, List.mem_append_left _ hp, hrest⟩


theorem pyDictGetOpt_wf (t : TierView) (fs : List (String × JVal))
    (hfnbp : t.funds_needed_by_period = some (JVal.obj fs))
    (hap : t.active_period = none ∨ ∃ s, t.active_period = some (JVal.s s))
    (hnum : ∀ q v, (q, v) ∈ fs → ∃ i : Int, v = JVal.n i) :
    pyDictGetOpt t.funds_needed_by_period t.active_period = Except.ok none ∨
    ∃ i : Int, pyDictGetOpt t.funds_needed_by_period t.active_period =
      Except.ok (some (JVal.n i)) := by
  rw [hfnbp]
  rcases hap with hap | ⟨s₀, hap⟩
  · rw [hap]
    exact Or.inl rfl
  · rw [hap]
    unfold pyDictGetOpt
    cases hl : fs.lookup s₀ with
    | none => exact Or.inl (by simp [nullCollapse, hl])
    | some v =>
      obtain ⟨i, hv⟩ := hnum s₀ v (lookup_mem _ _ _ hl)
      subst hv
      exact Or.inr ⟨i, by simp [nullCollapse, hl]⟩

theorem actionNeededTierStep_spec (m0 : Option Int) (mf0 : Option JVal)
    (k : String) (t : TierView) (S : List Int) (L : List (String × TierView))
    (hWF : WFTierView t) (hmin : MinIs m0 S) (husd : UsdOrigin mf0 L) :
    ∃ acc', actionNeededTierStep (m0, mf0) t = Except.ok acc' ∧
      MinIs acc'.1 (S ++ t.funds_needed_in_seconds.toList) ∧
      UsdOrigin acc'.2 (L ++ [(k, t)]) := by
  cases hf : t.funds_needed_in_seconds with
  | none =>
    refine ⟨(m0, mf0), ?_, ?_, UsdOrigin_mono _ _ _ husd⟩
    · unfold actionNeededTierStep
      rw [hf]
    · simpa using hmin
  | some f =>
    obtain ⟨hap, fs, hfnbp, hnum⟩ := hWF (by simp [hf])
    rw [show (some f : Option Int).toList = [f] from rfl]
    have husdNew : UsdOrigin mf0 (L ++ [(k, t)]) := UsdOrigin_mono _ _ _ husd
    -- the new-origin fact shared by the branches that replace the usd value
    have horigin : ∀ i : Int, i ≠ 0 →
        pyDictGetOpt t.funds_needed_by_period t.active_period =
          Except.ok (some (JVal.n i)) →
        UsdOrigin (some (JVal.n i)) (L ++ [(k, t)]) := by
      intro i hi hdict
      exact Or.inr ⟨(k, t), List.mem_append_right _ (List.mem_singleton_self _),
        by simp [hf], i, rfl, hi, hdict⟩
    unfold actionNeededTierStep
    rw [hf]
    dsimp only
    cases m0 with
    | none =>
      have hS : S = [] := hmin.1.mp rfl
      subst hS
      have minA : MinIs (some f) ([] ++ [f]) := by
        refine ⟨by simp, ?_⟩
        intro x hx
        injection hx with hx
        subst hx
        exact ⟨by simp, by intro v hv; simp at hv; omega⟩
      rcases pyDictGetOpt_wf t fs hfnbp hap hnum with hdict | ⟨i, hdict⟩
      · rw [hdict]
        exact ⟨(some f, mf0), rfl, minA, husdNew⟩
      · rw [hdict]
        dsimp only
        by_cases hi : i = 0
        · subst hi
          have : jvalNeZero (JVal.n 0) = false := by simp [jvalNeZero]
          rw [this]
          exact ⟨(some f, mf0), rfl, minA, husdNew⟩
        · have : jvalNeZero (JVal.n i) = true := by simp [jvalNeZero, hi]
          rw [this]
          cases mf0 with
          | none => exact ⟨(some f, some (JVal.n i)), rfl, minA, horigin i hi hdict⟩
          | some mf =>
            rcases husd with husd | ⟨p, hpL, hpf, i', hmf, hi', hdict'⟩
            · cases husd
            · injection hmf with hmf
              subst hmf
              by_cases hlt : i < i'
              · refine ⟨(some f, some (JVal.n i)), ?_, minA, horigin i hi hdict⟩
                simp [pyLt, hlt]
              · refine ⟨(some f, some (JVal.n i')), ?_, minA, ?_⟩
                · simp [pyLt, hlt]
                · exact Or.inr ⟨p, List.mem_append_left _ hpL, hpf, i', rfl, hi', hdict'⟩
    | some m =>
      have hmem := (hmin.2 m rfl).1
      have hbound := (hmin.2 m rfl).2
      by_cases hfm : f < m
      case neg =>
        rw [if_neg (by simpa using hfm)]
        refine ⟨(some m, mf0), rfl, ?_, husdNew⟩
        refine ⟨by simp, ?_⟩
        intro x hx
        injection hx with hx
        subst hx
        refine ⟨List.mem_append_left _ hmem, ?_⟩
        intro v hv
        rcases List.mem_append.mp hv with hv | hv
        · exact hbound v hv
        · simp at hv
          omega
      case pos =>
        rw [if_pos (by simpa using hfm)]
        have minA : MinIs (some f) (S ++ [f]) := by
          refine ⟨by simp, ?_⟩
          intro x hx
          injection hx with hx
          subst hx
          refine ⟨by simp, ?_⟩
          intro v hv
          rcases List.mem_append.mp hv with hv | hv
          · have := hbound v hv
            omega
          · simp at hv
            omega
        rcases pyDictGetOpt_wf t fs hfnbp hap hnum with hdict | ⟨i, hdict⟩
        · rw [hdict]
          exact ⟨(some f, mf0), rfl, minA, husdNew⟩
        · rw [hdict]
          dsimp only
          by_cases hi : i = 0
          · subst hi
            have : jvalNeZero (JVal.n 0) = false := by simp [jvalNeZero]
            rw [this]
            exact ⟨(some f, mf0), rfl, minA, husdNew⟩
          · have : jvalNeZero (JVal.n i) = true := by simp [jvalNeZero, hi]
            rw [this]
            cases mf0 with
            | none => exact ⟨(some f, some (JVal.n i)), rfl, minA, horigin i hi hdict⟩
            | some mf =>
              rcases husd with husd | ⟨p, hpL, hpf, i', hmf, hi', hdict'⟩
              · cases husd
              · injection hmf with hmf
                subst hmf
                by_cases hlt : i < i'
                · refine ⟨(some f, some (JVal.n i)), ?_, minA, horigin i hi hdict⟩
                  simp [pyLt, hlt]
                · refine ⟨(some f, some (JVal.n i')), ?_, minA, ?_⟩
                  · simp [pyLt, hlt]
                  · exact Or.inr ⟨p, List.mem_append_left _ hpL, hpf, i', rfl, hi', hdict'⟩

theorem tierSeconds_cons (k : String) (t : TierView)
    (rest : List (String × TierView)) :
    tierSeconds ((k, t) :: rest) =
      t.funds_needed_in_seconds.toList ++ tierSeconds rest := by
  unfold tierSeconds
  cases hf : t.funds_needed_in_seconds with
  | none => simp [List.filterMap_cons, hf]
  | some f => simp [List.filterMap_cons, hf]

theorem featureSeconds_cons (k : String) (ft : FeatureView)
    (rest : List (String × FeatureView)) :
    featureSeconds ((k, ft) :: rest) =
      ft.funds_needed_in_seconds.toList ++ featureSeconds rest := by
  unfold featureSeconds
  cases hf : ft.funds_needed_in_seconds with
  | none => simp [List.filterMap_cons, hf]
  | some f => simp [List.filterMap_cons, hf]

theorem MinIs_push_lt (m0 : Option Int) (S : List Int) (v : Int)
    (h : MinIs m0 S) (himp : m0 = none ∨ ∃ m, m0 = some m ∧ v < m) :
    MinIs (some v) (S ++ [v]) := by
  refine ⟨by simp, ?_⟩
  intro x hx
  injection hx with hx
  subst hx
  refine ⟨by simp, ?_⟩
  intro w hw
  rcases List.mem_append.mp hw with hw | hw
  · rcases himp with hm0 | ⟨m, hm0, hvm⟩
    · rw [h.1.mp hm0] at hw
      cases hw
    · have := (h.2 m hm0).2 w hw
      omega
  · simp at hw
    omega

theorem MinIs_push_ge (m : Int) (S : List Int) (v : Int)
    (h : MinIs (some m) S) (hge : ¬ v < m) : MinIs (some m) (S ++ [v]) := by
  refine ⟨by simp, ?_⟩
  intro x hx
  injection hx with hx
  subst hx
  refine ⟨List.mem_append_left _ (h.2 m rfl).1, ?_⟩
  intro w hw
  rcases List.mem_append.mp hw with hw | hw
  · exact (h.2 m rfl).2 w hw
  · simp at hw
    omega

theorem actionNeededTierLoop_spec (tiers : List (String × TierView)) :
    ∀ (m0 : Option Int) (mf0 : Option JVal) (S : List Int)
      (L : List (String × TierView)),
      WFTiers tiers → MinIs m0 S → UsdOrigin mf0 L →
      ∃ acc', actionNeededTierLoop (m0, mf0) tiers = Except.ok acc' ∧
        MinIs acc'.1 (S ++ tierSeconds tiers) ∧ UsdOrigin acc'.2 (L ++ tiers) := by
  induction tiers with
  | nil =>
    intro m0 mf0 S L _ h1 h2
    exact ⟨(m0, mf0), rfl, by simpa [tierSeconds] using h1, by simpa using h2⟩
  | cons p rest ih =>
    intro m0 mf0 S L hWF h1 h2
    obtain ⟨k, t⟩ := p
    obtain ⟨acc1, hstep, hm1, hu1⟩ :=
      actionNeededTierStep_spec m0 mf0 k t S L (hWF (k, t) (by simp)) h1 h2
    obtain ⟨m1, mf1⟩ := acc1
    obtain ⟨acc', hloop, hm2, hu2⟩ :=
      ih m1 mf1 (S ++ t.funds_needed_in_seconds.toList) (L ++ [(k, t)])
        (fun q hq => hWF q (List.mem_cons_of_mem _ hq)) hm1 hu1
    refine ⟨acc', ?_, ?_, ?_⟩
    · unfold actionNeededTierLoop
      rw [hstep]
      exact hloop
    · rw [tierSeconds_cons, ← List.append_assoc]
      exact hm2
    · have : L ++ [(k, t)] ++ rest = L ++ (k, t) :: rest := by simp
      rw [← this]
      exact hu2

theorem actionNeededFeatureLoop_spec (features : List (String × FeatureView)) :
    ∀ (m0 : Option Int) (S : List Int), MinIs m0 S →
      MinIs (actionNeededFeatureLoop m0 features) (S ++ featureSeconds features) := by
  induction features with
  | nil =>
    intro m0 S h
    simpa [featureSeconds] using h
  | cons p rest ih =>
    intro m0 S h
    obtain ⟨k, ft⟩ := p
    rw [featureSeconds_cons]
    unfold actionNeededFeatureLoop
    cases hf : ft.funds_needed_in_seconds with
    | none =>
      dsimp only
      simpa using ih m0 S h
    | some v =>
      dsimp only
      cases m0 with
      | none =>
        dsimp only
        have := ih (some v) (S ++ [v]) (MinIs_push_lt none S v h (Or.inl rfl))
        simpa [List.append_assoc] using this
      | some m =>
        dsimp only
        by_cases hvm : v < m
        · have hd : (decide (v < m)) = true := by simpa using hvm
          rw [hd]
          have := ih (some v) (S ++ [v])
            (MinIs_push_lt (some m) S v h (Or.inr ⟨m, rfl, hvm⟩))
          simpa [List.append_assoc] using this
        · have hd : (decide (v < m)) = false := by simpa using hvm
          rw [hd]
          have := ih (some m) (S ++ [v]) (MinIs_push_ge m S v h hvm)
          simpa [List.append_assoc] using this

/-- C1 (amended): for well-formed license views, the scan never raises;
`seconds` is the numerically smallest `funds_needed_in_seconds` across all
tiers and features combined, and the result is `none` exactly when no entry
carries one. `funds_needed_usd`, when present, is the nonzero active-period
funds amount of some tier that carries a seconds value — never of a feature
— but it is not necessarily the amount of the tier that supplies the
minimum. -/
theorem action_needed_amended (tiers : List (String × TierView))
    (features : List (String × FeatureView)) (hWF : WFTiers tiers) :
    ∃ res, license_action_needed_details tiers features = Except.ok res ∧
      (res = none ↔ allFundsSeconds tiers features = []) ∧
      ∀ a, res = some a →
        a.seconds ∈ allFundsSeconds tiers features ∧
        (∀ v ∈ allFundsSeconds tiers features, a.seconds ≤ v) ∧
        UsdOrigin a.funds_needed_usd tiers := by
  obtain ⟨acc, hloop, hm, hu⟩ :=
    actionNeededTierLoop_spec tiers none none [] [] hWF
      ⟨by simp, fun x hx => by cases hx⟩ (Or.inl rfl)
  obtain ⟨m1, mf1⟩ := acc
  have hfeat :=
    actionNeededFeatureLoop_spec features m1 (tierSeconds tiers) (by simpa using hm)
  unfold license_action_needed_details
  rw [hloop]
  dsimp only
  cases hd : actionNeededFeatureLoop m1 features with
  | none =>
    rw [hd] at hfeat
    refine ⟨none, rfl, ?_, ?_⟩
    · exact ⟨fun _ => hfeat.1.mp rfl, fun _ => rfl⟩
    · intro a ha
      cases ha
  | some d =>
    rw [hd] at hfeat
    refine ⟨some { seconds := d, funds_needed_usd := mf1 }, rfl, ?_, ?_⟩
    · constructor
      · intro hcontra
        cases hcontra
      · intro hnil
        exfalso
        have hdmem := (hfeat.2 d rfl).1
        have : tierSeconds tiers ++ featureSeconds features = [] := hnil
        rw [this] at hdmem
        cases hdmem
    · intro a ha
      injection ha with ha
      subst ha
      exact ⟨(hfeat.2 d rfl).1, (hfeat.2 d rfl).2, by simpa using hu⟩

/-- C1 witness: the two-tier example satisfies the well-formedness
hypothesis, so the amended theorem applies and the scan returns a value. -/
theorem action_needed_amended_witness :
    (license_action_needed_details exTiersC1 []).isOk = true := by
  have hWF : WFTiers exTiersC1 := by
    intro p hp
    simp only [exTiersC1, List.mem_cons, List.not_mem_nil, or_false] at hp
    rcases hp with rfl | rfl
    · intro _
      refine ⟨Or.inr ⟨"monthly", rfl⟩, [("monthly", JVal.n 5)], rfl, ?_⟩
      intro q v hqv
      simp only [List.mem_singleton, Prod.mk.injEq] at hqv
      exact ⟨5, hqv.2⟩
    · intro _
      refine ⟨Or.inr ⟨"monthly", rfl⟩, [("monthly", JVal.n 10)], rfl, ?_⟩
      intro q v hqv
      simp only [List.mem_singleton, Prod.mk.injEq] at hqv
      exact ⟨10, hqv.2⟩
  obtain ⟨res, hres, _⟩ := action_needed_amended exTiersC1 [] hWF
  rw [hres]
  rfl

/-! ## C8 -/

/-- C8 counterexample: the temporary file is the fixed relative path
`"temp.txt"` (resolved in the process's working directory), which is not in
the config file's directory. -/
theorem write_config_temp_dir_counterexample :
    (write_config (mkSupported []) "/home/user/.config/xr_driver/config.ini" []
        defaultConfig none).effects.head? =
      some (FsEffect.writeFile "temp.txt" (serializeConfig defaultConfig)) ∧
    posixDirname "temp.txt" = "" ∧
    posixDirname "/home/user/.config/xr_driver/config.ini" =
      "/home/user/.config/xr_driver" ∧
    ("" : String) ≠ "/home/user/.config/xr_driver" := by
  refine ⟨rfl, rfl, rfl, by decide⟩

theorem mem_serializeConfig_disabled (c : ConfigRecord) :
    mkLine "disabled" (pyBoolRepr c.disabled) ∈ serializeConfig c := by
  unfold serializeConfig
  exact List.mem_cons_self _ _

theorem mem_serializeConfig_external_mode (c : ConfigRecord) :
    mkLine "external_mode" (commaJoin c.external_mode) ∈ serializeConfig c := by
  unfold serializeConfig
  simp

/-- C8 (amended): `write_config` serializes every field (booleans lowercase,
lists comma-joined), writes the bytes to the fixed relative path
`"temp.txt"` — which lives in the process's current working directory, not
necessarily the config file's directory — then renames it over the target
path and sets the target's permissions to `0o666`. -/
theorem write_config_commit_sequence_amended (supported : List String)
    (path : String) (disk : List (List Char)) (config : ConfigRecord)
    (ui_view : Option UiViewIn) :
    (write_config supported path disk config ui_view).effects =
      [FsEffect.writeFile "temp.txt"
          (write_config supported path disk config ui_view).lines,
       FsEffect.replace "temp.txt" path,
       FsEffect.chmod path 438] ∧
    (write_config supported path disk config ui_view).lines =
      serializeConfig (write_config supported path disk config ui_view).record ∧
    mkLine "disabled"
        (pyBoolRepr (write_config supported path disk config ui_view).record.disabled)
      ∈ (write_config supported path disk config ui_view).lines ∧
    mkLine "external_mode"
        (commaJoin (write_config supported path disk config ui_view).record.external_mode)
      ∈ (write_config supported path disk config ui_view).lines :=
  ⟨rfl, rfl, mem_serializeConfig_disabled _, mem_serializeConfig_external_mode _⟩

/-! ## C2: character-level lemmas -/

theorem mem_of_head? {α : Type _} (l : List α) (c : α) (h : l.head? = some c) :
    c ∈ l := by
  cases l with
  | nil => cases h
  | cons a t =>
    injection h with h
    subst h
    exact List.mem_cons_self _ _

theorem dropWhile_eq_self_of_head (p : Char → Bool) (l : List Char)
    (h : ∀ c, l.head? = some c → p c = false) : l.dropWhile p = l := by
  cases l with
  | nil => rfl
  | cons a t =>
    rw [List.dropWhile_cons, h a rfl]
    simp

theorem pyStrip_eq_self (l : List Char)
    (h1 : ∀ c, l.head? = some c → isPySpace c = false)
    (h2 : ∀ c, l.reverse.head? = some c → isPySpace c = false) :
    pyStrip l = l := by
  unfold pyStrip
  rw [dropWhile_eq_self_of_head _ _ h1, dropWhile_eq_self_of_head _ _ h2,
    List.reverse_reverse]

theorem splitOnChar_ne_nil (c : Char) (l : List Char) : splitOnChar c l ≠ [] := by
  cases l with
  | nil => simp [splitOnChar]
  | cons x xs =>
    unfold splitOnChar
    by_cases h : x = c
    · simp [h]
    · rw [if_neg h]
      cases hr : splitOnChar c xs <;> simp

theorem splitOnChar_cons (c x : Char) (xs : List Char) :
    splitOnChar c (x :: xs) =
      (if x = c then [] :: splitOnChar c xs
       else
        match splitOnChar c xs with
        | y :: ys => (x :: y) :: ys
        | [] => [[x]]) := rfl

theorem splitOnChar_of_not_mem (c : Char) (l : List Char) (h : c ∉ l) :
    splitOnChar c l = [l] := by
  induction l with
  | nil => rfl
  | cons x xs ih =>
    have hx : ¬ (x = c) := fun hEq => h (by rw [hEq]; exact List.mem_cons_self _ _)
    rw [splitOnChar_cons, if_neg hx, ih (fun hmem => h (List.mem_cons_of_mem _ hmem))]

theorem splitOnChar_append (c : Char) (a b : List Char) (h : c ∉ a) :
    splitOnChar c (a ++ c :: b) = a :: splitOnChar c b := by
  induction a with
  | nil =>
    show splitOnChar c (c :: b) = [] :: splitOnChar c b
    rw [splitOnChar_cons, if_pos rfl]
  | cons x xs ih =>
    show splitOnChar c (x :: (xs ++ c :: b)) = (x :: xs) :: splitOnChar c b
    have hx : ¬ (x = c) := fun hEq => h (by rw [hEq]; exact List.mem_cons_self _ _)
    rw [splitOnChar_cons, if_neg hx, ih (fun hmem => h (List.mem_cons_of_mem _ hmem))]

theorem splitOnChar_line (k v : List Char) (hk : '=' ∉ k) (hv : '=' ∉ v) :
    splitOnChar '=' (k ++ '=' :: v) = [k, v] := by
  rw [splitOnChar_append '=' k v hk, splitOnChar_of_not_mem '=' v hv]

theorem splitOnChar_joinChar (c : Char) :
    ∀ ls : List (List Char), ls ≠ [] → (∀ l ∈ ls, c ∉ l) →
      splitOnChar c (joinChar c ls) = ls := by
  intro ls
  induction ls with
  | nil => intro h; exact absurd rfl h
  | cons x xs ih =>
    intro _ hall
    cases xs with
    | nil =>
      show splitOnChar c x = [x]
      exact splitOnChar_of_not_mem c x (hall x (List.mem_cons_self _ _))
    | cons y ys =>
      show splitOnChar c (x ++ c :: joinChar c (y :: ys)) = x :: (y :: ys)
      rw [splitOnChar_append c x _ (hall x (List.mem_cons_self _ _))]
      rw [ih (by simp) (fun l hl => hall l (List.mem_cons_of_mem _ hl))]

theorem mem_joinChar (c : Char) :
    ∀ (ls : List (List Char)) (x : Char),
      x ∈ joinChar c ls → x = c ∨ ∃ l ∈ ls, x ∈ l := by
  intro ls
  induction ls with
  | nil =>
    intro x hx
    cases hx
  | cons a xs ih =>
    intro x hx
    cases xs with
    | nil =>
      exact Or.inr ⟨a, List.mem_cons_self _ _, hx⟩
    | cons y ys =>
      rw [show joinChar c (a :: y :: ys) = a ++ c :: joinChar c (y :: ys) from rfl] at hx
      rcases List.mem_append.mp hx with hx | hx
      · exact Or.inr ⟨a, List.mem_cons_self _ _, hx⟩
      · rcases List.mem_cons.mp hx with hx | hx
        · exact Or.inl hx
        · rcases ih x hx with hx | ⟨l, hl, hxl⟩
          · exact Or.inl hx
          · exact Or.inr ⟨l, List.mem_cons_of_mem _ hl, hxl⟩

theorem digit_toNat (d : Nat) (h : d < 10) : (Char.ofNat (48 + d)).toNat = 48 + d := by
  interval_cases d <;> rfl

theorem digit_isDigit (d : Nat) (h : d < 10) :
    isDigitChar (Char.ofNat (48 + d)) = true := by
  interval_cases d <;> rfl

theorem natCharsAux_congr :
    ∀ fuel1 fuel2 n, n < fuel1 → n < fuel2 →
      natCharsAux fuel1 n = natCharsAux fuel2 n := by
  intro fuel1
  induction fuel1 with
  | zero =>
    intro _ n h1 _
    omega
  | succ f ih =>
    intro fuel2 n h1 h2
    cases fuel2 with
    | zero => omega
    | succ f2 =>
      show (if n < 10 then _ else _) = (if n < 10 then _ else _)
      by_cases h : n < 10
      · rw [if_pos h, if_pos h]
      · rw [if_neg h, if_neg h]
        have hdiv : n / 10 < n := Nat.div_lt_self (by omega) (by omega)
        rw [ih f2 (n / 10) (by omega) (by omega)]

theorem natChars_eq (n : Nat) : natChars n =
    (if n < 10 then [Char.ofNat (48 + n)]
     else natChars (n / 10) ++ [Char.ofNat (48 + n % 10)]) := by
  show natCharsAux (n + 1) n = _
  by_cases h : n < 10
  · simp [natCharsAux, h]
  · rw [show natCharsAux (n + 1) n =
      (if n < 10 then [Char.ofNat (48 + n)]
       else natCharsAux n (n / 10) ++ [Char.ofNat (48 + n % 10)]) from rfl]
    rw [if_neg h, if_neg h]
    have hdiv : n / 10 < n := Nat.div_lt_self (by omega) (by omega)
    rw [natCharsAux_congr n (n / 10 + 1) (n / 10) (by omega) (by omega)]
    rfl

theorem natChars_ne_nil (n : Nat) : natChars n ≠ [] := by
  rw [natChars_eq]
  by_cases h : n < 10
  · simp [h]
  · simp [h]

theorem natChars_all_digits (n : Nat) :
    ∀ ch ∈ natChars n, isDigitChar ch = true := by
  induction n using Nat.strong_induction_on with
  | _ n ih =>
    intro ch hch
    rw [natChars_eq] at hch
    by_cases h : n < 10
    · rw [if_pos h] at hch
      simp only [List.mem_singleton] at hch
      subst hch
      exact digit_isDigit n h
    · rw [if_neg h] at hch
      rcases List.mem_append.mp hch with hch | hch
      · exact ih (n / 10) (Nat.div_lt_self (by omega) (by omega)) ch hch
      · simp only [List.mem_singleton] at hch
        subst hch
        exact digit_isDigit (n % 10) (Nat.mod_lt _ (by omega))

theorem parseNatChars_append (l : List Char) (ch : Char) :
    parseNatChars (l ++ [ch]) = parseNatChars l * 10 + (ch.toNat - 48) := by
  unfold parseNatChars
  rw [List.foldl_append]
  rfl

theorem parseNat_natChars (n : Nat) : parseNatChars (natChars n) = n := by
  induction n using Nat.strong_induction_on with
  | _ n ih =>
    rw [natChars_eq]
    by_cases h : n < 10
    · rw [if_pos h]
      show parseNatChars [Char.ofNat (48 + n)] = n
      unfold parseNatChars
      simp only [List.foldl_cons, List.foldl_nil]
      rw [digit_toNat n h]
      omega
    · rw [if_neg h]
      rw [parseNatChars_append]
      rw [ih (n / 10) (Nat.div_lt_self (by omega) (by omega))]
      rw [digit_toNat (n % 10) (Nat.mod_lt _ (by omega))]
      omega

theorem digit_line_ok (ch : Char) (h : isDigitChar ch = true) :
    isPySpace ch = false ∧ ch ≠ '=' := by
  constructor
  · by_contra hc
    have hs : isPySpace ch = true := by simpa using hc
    simp only [isPySpace, Bool.or_eq_true, decide_eq_true_eq] at hs
    rcases hs with ((((rfl | rfl) | rfl) | rfl) | rfl) | rfl <;> exact absurd h (by decide)
  · intro hEq
    subst hEq
    exact absurd h (by decide)

theorem floatSafe_line_ok (ch : Char) (h : isFloatSafeChar ch = true) :
    isPySpace ch = false ∧ ch ≠ '=' := by
  constructor
  · by_contra hc
    have hs : isPySpace ch = true := by simpa using hc
    simp only [isPySpace, Bool.or_eq_true, decide_eq_true_eq] at hs
    rcases hs with ((((rfl | rfl) | rfl) | rfl) | rfl) | rfl <;> exact absurd h (by decide)
  · intro hEq
    subst hEq
    exact absurd h (by decide)

theorem floatLit_chars (l : List Char) (h : floatLit l = true) :
    ∀ ch ∈ l, isFloatSafeChar ch = true := by
  unfold floatLit at h
  rw [Bool.and_eq_true] at h
  exact fun ch hch => List.all_eq_true.mp h.1 ch hch

theorem floatLit_ne_nil (l : List Char) (h : floatLit l = true) : l ≠ [] := by
  intro hEq
  subst hEq
  exact absurd h (by decide)

theorem processLine_mkLine (cfg : ConfigRecord) (key : String) (v : List Char)
    (hk1 : key.data ≠ [])
    (hk : ∀ c ∈ key.data, isPySpace c = false ∧ c ≠ '=')
    (hv : ∀ c ∈ v, isPySpace c = false ∧ c ≠ '=') :
    processLine cfg (mkLine key v) = updateField cfg key v := by
  have hline : ∀ c ∈ key.data ++ '=' :: v, isPySpace c = false := by
    intro c hc
    rcases List.mem_append.mp hc with hc | hc
    · exact (hk c hc).1
    · rcases List.mem_cons.mp hc with rfl | hc
      · decide
      · exact (hv c hc).1
  have hstrip : pyStrip (key.data ++ '=' :: v) = key.data ++ '=' :: v := by
    apply pyStrip_eq_self
    · intro c hc
      exact hline c (mem_of_head? _ _ hc)
    · intro c hc
      have : c ∈ (key.data ++ '=' :: v).reverse := mem_of_head? _ _ hc
      exact hline c (List.mem_reverse.mp this)
  have hsplit : splitOnChar '=' (key.data ++ '=' :: v) = [key.data, v] :=
    splitOnChar_line _ _ (fun hc => (hk '=' hc).2 rfl) (fun hc => (hv '=' hc).2 rfl)
  unfold processLine mkLine
  rw [hstrip]
  rw [if_neg (by simp [hk1])]
  rw [hsplit]

theorem parse_boolean_roundtrip (b dflt : Bool) :
    parse_boolean (pyBoolRepr b) dflt = b := by
  cases b <;> rfl

theorem parse_int_roundtrip (i dflt : Int) (h : 0 ≤ i) :
    parse_int (pyIntRepr i) dflt = i := by
  unfold pyIntRepr
  rw [if_neg (by omega)]
  unfold parse_int
  rw [if_pos ⟨natChars_ne_nil _, List.all_eq_true.mpr (natChars_all_digits _)⟩]
  rw [parseNat_natChars]
  exact Int.toNat_of_nonneg h

theorem parse_string_roundtrip (s : String) (dflt : String) (h : s.data ≠ []) :
    parse_string s.data dflt = s := by
  unfold parse_string
  rw [if_neg h]

theorem parse_float_roundtrip (s : String) (dflt : String)
    (h : floatLit s.data = true) : parse_float s.data dflt = s := by
  have hchars := floatLit_chars s.data h
  have hstrip : pyStrip s.data = s.data := by
    apply pyStrip_eq_self
    · intro c hc
      exact (floatSafe_line_ok c (hchars c (mem_of_head? _ _ hc))).1
    · intro c hc
      have : c ∈ s.data.reverse := mem_of_head? _ _ hc
      exact (floatSafe_line_ok c (hchars c (List.mem_reverse.mp this))).1
  unfold parse_float
  rw [hstrip, if_pos h]

theorem joinChar_map_ne_nil (x : String) (xs : List String) (hx : x.data ≠ []) :
    joinChar ',' ((x :: xs).map String.data) ≠ [] := by
  cases xs with
  | nil => exact hx
  | cons y ys => simp [joinChar]

theorem parse_array_roundtrip (xs : List String) (dflt : List String)
    (hne : xs ≠ []) (h : listFieldOK xs) :
    parse_array (commaJoin xs) dflt = xs := by
  obtain ⟨x, rest, rfl⟩ := List.exists_cons_of_ne_nil hne
  unfold parse_array commaJoin
  rw [if_neg (joinChar_map_ne_nil x rest (h x (List.mem_cons_self _ _)).1)]
  rw [splitOnChar_joinChar ',' ((x :: rest).map String.data) (by simp)
    (by
      intro l hl
      obtain ⟨y, hy, rfl⟩ := List.mem_map.mp hl
      intro hc
      exact ((h y hy).2 ',' hc).2.1 rfl)]
  rw [List.map_map]
  have : (String.mk ∘ String.data) = id := by
    funext z
    rfl
  rw [this, List.map_id]

theorem parse_array_nil_roundtrip (dflt : List String) :
    parse_array (commaJoin []) dflt = dflt := rfl

theorem boolRepr_line_ok (b : Bool) :
    ∀ c ∈ pyBoolRepr b, isPySpace c = false ∧ c ≠ '=' := by
  cases b <;> decide

theorem intRepr_line_ok (i : Int) (h : 0 ≤ i) :
    ∀ c ∈ pyIntRepr i, isPySpace c = false ∧ c ≠ '=' := by
  intro c hc
  unfold pyIntRepr at hc
  rw [if_neg (by omega)] at hc
  exact digit_line_ok c (natChars_all_digits _ c hc)

theorem floatRepr_line_ok (s : String) (h : floatFieldOK s) :
    ∀ c ∈ s.data, isPySpace c = false ∧ c ≠ '=' :=
  fun c hc => floatSafe_line_ok c (floatLit_chars _ h c hc)

theorem strField_line_ok (s : String) (h : strFieldOK s) :
    ∀ c ∈ s.data, isPySpace c = false ∧ c ≠ '=' :=
  fun c hc => ⟨(h.2 c hc).2, (h.2 c hc).1⟩

theorem commaJoin_line_ok (xs : List String) (h : listFieldOK xs) :
    ∀ c ∈ commaJoin xs, isPySpace c = false ∧ c ≠ '=' := by
  intro c hc
  rcases mem_joinChar ',' _ c hc with rfl | ⟨l, hl, hcl⟩
  · exact ⟨by decide, by decide⟩
  · obtain ⟨y, hy, rfl⟩ := List.mem_map.mp hl
    exact ⟨((h y hy).2 c hcl).2.2, ((h y hy).2 c hcl).1⟩

theorem step_disabled (cfg : ConfigRecord) (b : Bool) :
    processLine cfg (mkLine "disabled" (pyBoolRepr b)) =
      { cfg with disabled := b } := by
  rw [processLine_mkLine cfg "disabled" _ (by decide) (by decide)
    (boolRepr_line_ok b)]
  rw [show updateField cfg "disabled" (pyBoolRepr b) =
    { cfg with disabled := parse_boolean (pyBoolRepr b) true } from rfl]
  rw [parse_boolean_roundtrip]

theorem step_gamescope_reshade_wayland_disabled (cfg : ConfigRecord) (b : Bool) :
    processLine cfg (mkLine "gamescope_reshade_wayland_disabled" (pyBoolRepr b)) =
      { cfg with gamescope_reshade_wayland_disabled := b } := by
  rw [processLine_mkLine cfg "gamescope_reshade_wayland_disabled" _ (by decide) (by decide)
    (boolRepr_line_ok b)]
  rw [show updateField cfg "gamescope_reshade_wayland_disabled" (pyBoolRepr b) =
    { cfg with gamescope_reshade_wayland_disabled := parse_boolean (pyBoolRepr b) false } from rfl]
  rw [parse_boolean_roundtrip]

theorem step_vr_lite_invert_x (cfg : ConfigRecord) (b : Bool) :
    processLine cfg (mkLine "vr_lite_invert_x" (pyBoolRepr b)) =
      { cfg with vr_lite_invert_x := b } := by
  rw [processLine_mkLine cfg "vr_lite_invert_x" _ (by decide) (by decide)
    (boolRepr_line_ok b)]
  rw [show updateField cfg "vr_lite_invert_x" (pyBoolRepr b) =
    { cfg with vr_lite_invert_x := parse_boolean (pyBoolRepr b) false } from rfl]
  rw [parse_boolean_roundtrip]

theorem step_vr_lite_invert_y (cfg : ConfigRecord) (b : Bool) :
    processLine cfg (mkLine "vr_lite_invert_y" (pyBoolRepr b)) =
      { cfg with vr_lite_invert_y := b } := by
  rw [processLine_mkLine cfg "vr_lite_invert_y" _ (by decide) (by decide)
    (boolRepr_line_ok b)]
  rw [show updateField cfg "vr_lite_invert_y" (pyBoolRepr b) =
    { cfg with vr_lite_invert_y := parse_boolean (pyBoolRepr b) false } from rfl]
  rw [parse_boolean_roundtrip]

theorem step_sbs_content (cfg : ConfigRecord) (b : Bool) :
    processLine cfg (mkLine "sbs_content" (pyBoolRepr b)) =
      { cfg with sbs_content := b } := by
  rw [processLine_mkLine cfg "sbs_content" _ (by decide) (by decide)
    (boolRepr_line_ok b)]
  rw [show updateField cfg "sbs_content" (pyBoolRepr b) =
    { cfg with sbs_content := parse_boolean (pyBoolRepr b) false } from rfl]
  rw [parse_boolean_roundtrip]

theorem step_sbs_mode_stretched (cfg : ConfigRecord) (b : Bool) :
    processLine cfg (mkLine "sbs_mode_stretched" (pyBoolRepr b)) =
      { cfg with sbs_mode_stretched := b } := by
  rw [processLine_mkLine cfg "sbs_mode_stretched" _ (by decide) (by decide)
    (boolRepr_line_ok b)]
  rw [show updateField cfg "sbs_mode_stretched" (pyBoolRepr b) =
    { cfg with sbs_mode_stretched := parse_boolean (pyBoolRepr b) true } from rfl]
  rw [parse_boolean_roundtrip]

theorem step_virtual_display_smooth_follow_enabled (cfg : ConfigRecord) (b : Bool) :
    processLine cfg (mkLine "virtual_display_smooth_follow_enabled" (pyBoolRepr b)) =
      { cfg with virtual_display_smooth_follow_enabled := b } := by
  rw [processLine_mkLine cfg "virtual_display_smooth_follow_enabled" _ (by decide) (by decide)
    (boolRepr_line_ok b)]
  rw [show updateField cfg "virtual_display_smooth_follow_enabled" (pyBoolRepr b) =
    { cfg with virtual_display_smooth_follow_enabled := parse_boolean (pyBoolRepr b) false } from rfl]
  rw [parse_boolean_roundtrip]

theorem step_sideview_smooth_follow_enabled (cfg : ConfigRecord) (b : Bool) :
    processLine cfg (mkLine "sideview_smooth_follow_enabled" (pyBoolRepr b)) =
      { cfg with sideview_smooth_follow_enabled := b } := by
  rw [processLine_mkLine cfg "sideview_smooth_follow_enabled" _ (by decide) (by decide)
    (boolRepr_line_ok b)]
  rw [show updateField cfg "sideview_smooth_follow_enabled" (pyBoolRepr b) =
    { cfg with sideview_smooth_follow_enabled := parse_boolean (pyBoolRepr b) false } from rfl]
  rw [parse_boolean_roundtrip]

theorem step_curved_display (cfg : ConfigRecord) (b : Bool) :
    processLine cfg (mkLine "curved_display" (pyBoolRepr b)) =
      { cfg with curved_display := b } := by
  rw [processLine_mkLine cfg "curved_display" _ (by decide) (by decide)
    (boolRepr_line_ok b)]
  rw [show updateField cfg "curved_display" (pyBoolRepr b) =
    { cfg with curved_display := parse_boolean (pyBoolRepr b) false } from rfl]
  rw [parse_boolean_roundtrip]

theorem step_multi_tap_enabled (cfg : ConfigRecord) (b : Bool) :
    processLine cfg (mkLine "multi_tap_enabled" (pyBoolRepr b)) =
      { cfg with multi_tap_enabled := b } := by
  rw [processLine_mkLine cfg "multi_tap_enabled" _ (by decide) (by decide)
    (boolRepr_line_ok b)]
  rw [show updateField cfg "multi_tap_enabled" (pyBoolRepr b) =
    { cfg with multi_tap_enabled := parse_boolean (pyBoolRepr b) false } from rfl]
  rw [parse_boolean_roundtrip]

theorem step_smooth_follow_track_roll (cfg : ConfigRecord) (b : Bool) :
    processLine cfg (mkLine "smooth_follow_track_roll" (pyBoolRepr b)) =
      { cfg with smooth_follow_track_roll := b } := by
  rw [processLine_mkLine cfg "smooth_follow_track_roll" _ (by decide) (by decide)
    (boolRepr_line_ok b)]
  rw [show updateField cfg "smooth_follow_track_roll" (pyBoolRepr b) =
    { cfg with smooth_follow_track_roll := parse_boolean (pyBoolRepr b) false } from rfl]
  rw [parse_boolean_roundtrip]

theorem step_smooth_follow_track_pitch (cfg : ConfigRecord) (b : Bool) :
    processLine cfg (mkLine "smooth_follow_track_pitch" (pyBoolRepr b)) =
      { cfg with smooth_follow_track_pitch := b } := by
  rw [processLine_mkLine cfg "smooth_follow_track_pitch" _ (by decide) (by decide)
    (boolRepr_line_ok b)]
  rw [show updateField cfg "smooth_follow_track_pitch" (pyBoolRepr b) =
    { cfg with smooth_follow_track_pitch := parse_boolean (pyBoolRepr b) true } from rfl]
  rw [parse_boolean_roundtrip]

theorem step_smooth_follow_track_yaw (cfg : ConfigRecord) (b : Bool) :
    processLine cfg (mkLine "smooth_follow_track_yaw" (pyBoolRepr b)) =
      { cfg with smooth_follow_track_yaw := b } := by
  rw [processLine_mkLine cfg "smooth_follow_track_yaw" _ (by decide) (by decide)
    (boolRepr_line_ok b)]
  rw [show updateField cfg "smooth_follow_track_yaw" (pyBoolRepr b) =
    { cfg with smooth_follow_track_yaw := parse_boolean (pyBoolRepr b) true } from rfl]
  rw [parse_boolean_roundtrip]

theorem step_mouse_sensitivity (cfg : ConfigRecord) (i : Int) (h : 0 ≤ i) :
    processLine cfg (mkLine "mouse_sensitivity" (pyIntRepr i)) =
      { cfg with mouse_sensitivity := i } := by
  rw [processLine_mkLine cfg "mouse_sensitivity" _ (by decide) (by decide)
    (intRepr_line_ok i h)]
  rw [show updateField cfg "mouse_sensitivity" (pyIntRepr i) =
    { cfg with mouse_sensitivity := parse_int (pyIntRepr i) 30 } from rfl]
  rw [parse_int_roundtrip i 30 h]

theorem step_look_ahead (cfg : ConfigRecord) (i : Int) (h : 0 ≤ i) :
    processLine cfg (mkLine "look_ahead" (pyIntRepr i)) =
      { cfg with look_ahead := i } := by
  rw [processLine_mkLine cfg "look_ahead" _ (by decide) (by decide)
    (intRepr_line_ok i h)]
  rw [show updateField cfg "look_ahead" (pyIntRepr i) =
    { cfg with look_ahead := parse_int (pyIntRepr i) 0 } from rfl]
  rw [parse_int_roundtrip i 0 h]

theorem step_display_zoom (cfg : ConfigRecord) (s : String) (h : floatFieldOK s) :
    processLine cfg (mkLine "display_zoom" s.data) =
      { cfg with display_zoom := s } := by
  rw [processLine_mkLine cfg "display_zoom" _ (by decide) (by decide)
    (floatRepr_line_ok s h)]
  rw [show updateField cfg "display_zoom" s.data =
    { cfg with display_zoom := parse_float s.data "1.0" } from rfl]
  rw [parse_float_roundtrip s "1.0" h]

theorem step_sbs_display_size (cfg : ConfigRecord) (s : String) (h : floatFieldOK s) :
    processLine cfg (mkLine "sbs_display_size" s.data) =
      { cfg with sbs_display_size := s } := by
  rw [processLine_mkLine cfg "sbs_display_size" _ (by decide) (by decide)
    (floatRepr_line_ok s h)]
  rw [show updateField cfg "sbs_display_size" s.data =
    { cfg with sbs_display_size := parse_float s.data "1.0" } from rfl]
  rw [parse_float_roundtrip s "1.0" h]

theorem step_sbs_display_distance (cfg : ConfigRecord) (s : String) (h : floatFieldOK s) :
    processLine cfg (mkLine "sbs_display_distance" s.data) =
      { cfg with sbs_display_distance := s } := by
  rw [processLine_mkLine cfg "sbs_display_distance" _ (by decide) (by decide)
    (floatRepr_line_ok s h)]
  rw [show updateField cfg "sbs_display_distance" s.data =
    { cfg with sbs_display_distance := parse_float s.data "1.0" } from rfl]
  rw [parse_float_roundtrip s "1.0" h]

theorem step_sideview_display_size (cfg : ConfigRecord) (s : String) (h : floatFieldOK s) :
    processLine cfg (mkLine "sideview_display_size" s.data) =
      { cfg with sideview_display_size := s } := by
  rw [processLine_mkLine cfg "sideview_display_size" _ (by decide) (by decide)
    (floatRepr_line_ok s h)]
  rw [show updateField cfg "sideview_display_size" s.data =
    { cfg with sideview_display_size := parse_float s.data "1.0" } from rfl]
  rw [parse_float_roundtrip s "1.0" h]

theorem step_sideview_follow_threshold (cfg : ConfigRecord) (s : String) (h : floatFieldOK s) :
    processLine cfg (mkLine "sideview_follow_threshold" s.data) =
      { cfg with sideview_follow_threshold := s } := by
  rw [processLine_mkLine cfg "sideview_follow_threshold" _ (by decide) (by decide)
    (floatRepr_line_ok s h)]
  rw [show updateField cfg "sideview_follow_threshold" s.data =
    { cfg with sideview_follow_threshold := parse_float s.data "0.5" } from rfl]
  rw [parse_float_roundtrip s "0.5" h]

theorem step_neck_saver_horizontal_multiplier (cfg : ConfigRecord) (s : String) (h : floatFieldOK s) :
    processLine cfg (mkLine "neck_saver_horizontal_multiplier" s.data) =
      { cfg with neck_saver_horizontal_multiplier := s } := by
  rw [processLine_mkLine cfg "neck_saver_horizontal_multiplier" _ (by decide) (by decide)
    (floatRepr_line_ok s h)]
  rw [show updateField cfg "neck_saver_horizontal_multiplier" s.data =
    { cfg with neck_saver_horizontal_multiplier := parse_float s.data "1.0" } from rfl]
  rw [parse_float_roundtrip s "1.0" h]

theorem step_neck_saver_vertical_multiplier (cfg : ConfigRecord) (s : String) (h : floatFieldOK s) :
    processLine cfg (mkLine "neck_saver_vertical_multiplier" s.data) =
      { cfg with neck_saver_vertical_multiplier := s } := by
  rw [processLine_mkLine cfg "neck_saver_vertical_multiplier" _ (by decide) (by decide)
    (floatRepr_line_ok s h)]
  rw [show updateField cfg "neck_saver_vertical_multiplier" s.data =
    { cfg with neck_saver_vertical_multiplier := parse_float s.data "1.0" } from rfl]
  rw [parse_float_roundtrip s "1.0" h]

theorem step_output_mode (cfg : ConfigRecord) (s : String) (h : strFieldOK s) :
    processLine cfg (mkLine "output_mode" s.data) =
      { cfg with output_mode := s } := by
  rw [processLine_mkLine cfg "output_mode" _ (by decide) (by decide)
    (strField_line_ok s h)]
  rw [show updateField cfg "output_mode" s.data =
    { cfg with output_mode := parse_string s.data "mouse" } from rfl]
  rw [parse_string_roundtrip s "mouse" h.1]

theorem step_sideview_position (cfg : ConfigRecord) (s : String) (h : strFieldOK s) :
    processLine cfg (mkLine "sideview_position" s.data) =
      { cfg with sideview_position := s } := by
  rw [processLine_mkLine cfg "sideview_position" _ (by decide) (by decide)
    (strField_line_ok s h)]
  rw [show updateField cfg "sideview_position" s.data =
    { cfg with sideview_position := parse_string s.data "center" } from rfl]
  rw [parse_string_roundtrip s "center" h.1]

theorem step_external_mode (cfg : ConfigRecord) (xs : List String)
    (hne : xs ≠ []) (h : listFieldOK xs) :
    processLine cfg (mkLine "external_mode" (commaJoin xs)) =
      { cfg with external_mode := xs } := by
  rw [processLine_mkLine cfg "external_mode" _ (by decide) (by decide)
    (commaJoin_line_ok xs h)]
  rw [show updateField cfg "external_mode" (commaJoin xs) =
    { cfg with external_mode := parse_array (commaJoin xs) ["none"] } from rfl]
  rw [parse_array_roundtrip xs _ hne h]

theorem step_debug (cfg : ConfigRecord) (xs : List String) (h : listFieldOK xs) :
    processLine cfg (mkLine "debug" (commaJoin xs)) =
      { cfg with debug := xs } := by
  rw [processLine_mkLine cfg "debug" _ (by decide) (by decide)
    (commaJoin_line_ok xs h)]
  cases xs with
  | nil => rfl
  | cons x rest =>
    rw [show updateField cfg "debug" (commaJoin (x :: rest)) =
      { cfg with debug := parse_array (commaJoin (x :: rest)) [] } from rfl]
    rw [parse_array_roundtrip (x :: rest) _ (by simp) h]

theorem retrieve_serialize_roundtrip (cfg : ConfigRecord)
    (h : ValidConfigRecord cfg) : retrieve_config (serializeConfig cfg) = cfg := by
  obtain ⟨hms, hla, hom, hsp, hemne, hemok, hdbg, hf1, hf2, hf3, hf4, hf5, hf6, hf7⟩ := h
  unfold retrieve_config serializeConfig
  simp only [List.foldl_cons, List.foldl_nil]
  rw [step_disabled, step_gamescope_reshade_wayland_disabled,
    step_output_mode _ _ hom, step_external_mode _ _ hemne hemok,
    step_vr_lite_invert_x, step_vr_lite_invert_y,
    step_mouse_sensitivity _ _ hms, step_display_zoom _ _ hf1,
    step_look_ahead _ _ hla, step_sbs_display_size _ _ hf2,
    step_sbs_display_distance _ _ hf3, step_sbs_content, step_sbs_mode_stretched,
    step_sideview_position _ _ hsp, step_sideview_display_size _ _ hf4,
    step_virtual_display_smooth_follow_enabled, step_sideview_smooth_follow_enabled,
    step_sideview_follow_threshold _ _ hf5, step_curved_display,
    step_multi_tap_enabled, step_smooth_follow_track_roll,
    step_smooth_follow_track_pitch, step_smooth_follow_track_yaw,
    step_neck_saver_horizontal_multiplier _ _ hf6,
    step_neck_saver_vertical_multiplier _ _ hf7, step_debug _ _ hdbg]

/-- C2 (amended): for every valid config record — schema-typed values whose
integer fields are nonnegative and whose string-shaped values survive the
flat `key=value`, comma-joined file format — reading back what
`write_config` wrote reproduces every field exactly, and the derived
`ui_view` is recomputed from the saved fields via `config_to_headset_mode`
and the `output_mode == "joystick"` test. -/
theorem config_roundtrip_amended (som : List String) (path : String)
    (disk : List (List Char)) (cfg : ConfigRecord) (h : ValidConfigRecord cfg) :
    retrieve_config_view (mkSupported som)
        (write_config (mkSupported som) path disk cfg none).lines =
      (cfg, build_config_ui_view (mkSupported som) cfg) := by
  have hlines : (write_config (mkSupported som) path disk cfg none).lines =
      serializeConfig cfg := by
    unfold write_config
    dsimp only
    rw [if_neg h.2.2.2.2.1]
  unfold retrieve_config_view
  rw [hlines, retrieve_serialize_roundtrip cfg h]

/-- C2 counterexample: a schema-typed record whose `mouse_sensitivity` is the
integer `-5` round-trips to the schema default `30`: `parse_int` rejects
negative decimal strings (`isdigit` is false for `"-5"`), so the field is
not reproduced. -/
theorem config_roundtrip_counterexample :
    (retrieve_config
        (write_config (mkSupported []) "/tmp/config.ini" [] cfgNegativeInt
          none).lines).mouse_sensitivity = 30 ∧
    cfgNegativeInt.mouse_sensitivity = -5 :=
  ⟨by decide, rfl⟩

/-- C2 witness: a concrete valid record with non-default values round-trips
exactly. -/
theorem config_roundtrip_amended_witness :
    retrieve_config_view (mkSupported ["sideview"])
        (write_config (mkSupported ["sideview"]) "/tmp/config.ini" []
          cfgRoundtripWitness none).lines =
      (cfgRoundtripWitness,
        build_config_ui_view (mkSupported ["sideview"]) cfgRoundtripWitness) :=
  config_roundtrip_amended ["sideview"] "/tmp/config.ini" [] cfgRoundtripWitness
    (by
      unfold ValidConfigRecord strFieldOK listFieldOK listElemOK floatFieldOK
      decide)
